import Mathlib

/-! # OpenHMD Rift tracker: pose solver front end and tracked-device registry

A shallow embedding of `src/drv_oculus_rift/rift-sensor-opencv.cpp`,
`src/drv_oculus_rift/rift-tracker.c` and `src/drv_wmr/wmr.c`.

Conventions of the embedding.

* `float` and `double` values are idealised as exact rationals (`ℚ`); rounding is not
  modelled.  The one place where IEEE arithmetic leaves the finite numbers, the division
  by a zero rotation angle in `estimate_initial_pose`, is modelled by an `Option`.
* C arrays passed as pointer plus length are lists; a bare pointer indexed by an id
  (`rift_led *leds`) is a function from the index.
* Library routines that are not part of the translated files (OpenCV, libm, the fusion
  filter) are fields of a record of operations, so every theorem holds for all of them.
* Each operation is one atomic state transformer; the mutex calls an operation makes are
  modelled apart, as its trace of lock events.
* Constants and type layouts declared in headers outside the translated files are
  parameters.
-/

namespace OpenHMD

/-! ## Math types -/

/-- Three floats, `vec3f` of `omath.h`. -/
structure vec3f where
  x : ℚ
  y : ℚ
  z : ℚ
  deriving DecidableEq, Inhabited

/-- Quaternion `(x, y, z, w)`, `quatf` of `omath.h`. -/
structure quatf where
  x : ℚ
  y : ℚ
  z : ℚ
  w : ℚ
  deriving DecidableEq, Inhabited

/-- Position and orientation, `posef` of `omath.h`. -/
structure posef where
  pos : vec3f
  orient : quatf
  deriving DecidableEq, Inhabited

/-- A 3x3 matrix of doubles in row-major order (`cv::Mat(3, 3, CV_64FC1)`, `dmat3`). -/
structure mat3x3 where
  m00 : ℚ
  m01 : ℚ
  m02 : ℚ
  m10 : ℚ
  m11 : ℚ
  m12 : ℚ
  m20 : ℚ
  m21 : ℚ
  m22 : ℚ
  deriving DecidableEq, Inhabited

/-- The type `cv::Point3f`; a default-constructed point is zero. -/
structure Point3f where
  x : ℚ
  y : ℚ
  z : ℚ
  deriving DecidableEq

instance : Inhabited Point3f := ⟨⟨0, 0, 0⟩⟩

/-- The type `cv::Point2f`; a default-constructed point is zero. -/
structure Point2f where
  x : ℚ
  y : ℚ
  deriving DecidableEq

instance : Inhabited Point2f := ⟨⟨0, 0⟩⟩

/-! ## `rift-sensor-opencv.cpp` -/

/-- The fields of `struct blob` that the pose solver reads: the centroid and the LED label
(negative when the blob is unlabelled). -/
structure blob where
  x : ℚ
  y : ℚ
  led_id : Int
  deriving DecidableEq

/-- The field of `rift_led` that the pose solver reads. -/
structure rift_led where
  pos : vec3f
  deriving DecidableEq, Inhabited

/-- The function `quatf_to_3x3`: rotation matrix of a quaternion. -/
def quatf_to_3x3 (me : quatf) : mat3x3 :=
  { m00 := 1 - 2 * me.y * me.y - 2 * me.z * me.z
    m01 := 2 * me.x * me.y - 2 * me.w * me.z
    m02 := 2 * me.x * me.z + 2 * me.w * me.y
    m10 := 2 * me.x * me.y + 2 * me.w * me.z
    m11 := 1 - 2 * me.x * me.x - 2 * me.z * me.z
    m12 := 2 * me.y * me.z - 2 * me.w * me.x
    m20 := 2 * me.x * me.z - 2 * me.w * me.y
    m21 := 2 * me.y * me.z + 2 * me.w * me.x
    m22 := 1 - 2 * me.x * me.x - 2 * me.y * me.y }

/-- The mask `1ULL << led_id` for a non-negative `led_id`.  A shift count of 64 or more is
undefined in C; the model keeps the low six bits of the count, as 64-bit shifters do. -/
def led_bit (led_id : Int) : Nat := 1 <<< (led_id.toNat % 64)

/-- The first loop of `estimate_initial_pose` ("count identified leds"), from the state
`(taken, num_leds)` over the remaining blobs.  Every mask is below `2 ^ 64`, so the 64-bit
word `taken` never overflows. -/
def count_leds_loop : List blob → Nat → Nat → Nat × Nat
  | [], taken, num_leds => (taken, num_leds)
  | b :: bs, taken, num_leds =>
    if b.led_id < 0 then count_leds_loop bs taken num_leds
    else if taken &&& led_bit b.led_id ≠ 0 then count_leds_loop bs taken num_leds
    else count_leds_loop bs (taken ||| led_bit b.led_id) (num_leds + 1)

/-- The value of `num_leds` after the first loop, which is stored to `*num_leds_out`. -/
def count_leds (blobs : List blob) : Nat := (count_leds_loop blobs 0 0).2

/-- The second loop of `estimate_initial_pose`, from the state `(taken, j)` and the two
point vectors over the remaining blobs; it stops as soon as `j < num_leds` fails. -/
def fill_points_loop (leds : Nat → rift_led) (num_leds : Nat) :
    List blob → Nat → Nat → List Point3f → List Point2f → Nat × List Point3f × List Point2f
  | [], _, j, p3, p2 => (j, p3, p2)
  | b :: bs, taken, j, p3, p2 =>
    if ¬ j < num_leds then (j, p3, p2)
    else if b.led_id < 0 then fill_points_loop leds num_leds bs taken j p3 p2
    else if taken &&& led_bit b.led_id ≠ 0 then fill_points_loop leds num_leds bs taken j p3 p2
    else
      fill_points_loop leds num_leds bs (taken ||| led_bit b.led_id) (j + 1)
        (p3.set j ⟨(leds b.led_id.toNat).pos.x, (leds b.led_id.toNat).pos.y,
          (leds b.led_id.toNat).pos.z⟩)
        (p2.set j ⟨b.x, b.y⟩)

/-- The method `std::vector::resize`: truncate, or pad with default elements. -/
def resize {α : Type} [Inhabited α] (l : List α) (n : Nat) : List α :=
  l.take n ++ List.replicate (n - l.length) default

/-- The two point vectors that reach `cv::fisheye::undistortPoints` and
`cv::solvePnPRansac`, or `none` when one of the two `num_leds < 4` checks returns. -/
def solver_points (leds : Nat → rift_led) (blobs : List blob) :
    Option (List Point3f × List Point2f) :=
  let num_leds := count_leds blobs
  if num_leds < 4 then none
  else
    let r := fill_points_loop leds num_leds blobs 0 0
      (List.replicate num_leds default) (List.replicate num_leds default)
    if r.1 < 4 then none
    else some (resize r.2.1 r.1, resize r.2.2 r.1)

/-- The library routines `estimate_initial_pose` calls.  `solvePnPRansac p3 p2 rvec tvec
guess` stands for the call with the identity camera, zero distortion, 50 iterations,
reprojection error 1.0, confidence 0.95 and `CV_ITERATIVE`; it yields the returned flag and
the contents of `rvec` and `tvec` after the call. -/
structure cv_ops where
  Rodrigues : mat3x3 → vec3f
  undistortPoints : List Point2f → mat3x3 → List ℚ → List Point2f
  solvePnPRansac : List Point3f → List Point2f → vec3f → vec3f → Bool → Bool × vec3f × vec3f
  sqrt : ℚ → ℚ
  oquatf_init_axis : vec3f → ℚ → quatf

/-- What `estimate_initial_pose` leaves behind: the returned flag, `*num_leds_out`, `*rot`
and `*trans`.  `rot = none` stands for a quaternion computed from components that are not
finite numbers. -/
structure pose_result where
  ret : Bool
  num_leds_out : Nat
  rot : Option quatf
  trans : vec3f
  deriving DecidableEq

/-- Lines 120-127: rotation vector to axis and angle, then to a quaternion.  With a zero
angle `1.0f / angle` is infinite and the axis components `0 * inf` are not numbers. -/
def rvec_to_quat (cv : cv_ops) (rvec : vec3f) : Option quatf :=
  let angle := cv.sqrt (rvec.x * rvec.x + rvec.y * rvec.y + rvec.z * rvec.z)
  if angle = 0 then none
  else
    let inorm := 1 / angle
    some (cv.oquatf_init_axis ⟨rvec.x * inorm, rvec.y * inorm, rvec.z * inorm⟩ angle)

/-- The function `estimate_initial_pose`.  `num_blobs` is the length of `blobs`;
`num_led_pos` is not read by the source.  Both `num_leds < 4` returns are the `none` case
of `solver_points`. -/
def estimate_initial_pose (cv : cv_ops) (blobs : List blob) (leds : Nat → rift_led)
    (camera_matrix : mat3x3) (dist_coeffs : List ℚ) (rot : quatf) (trans : vec3f)
    (use_extrinsic_guess : Bool) : pose_result :=
  let tvec := trans
  let rvec := cv.Rodrigues (quatf_to_3x3 rot)
  let num_leds := count_leds blobs
  match solver_points leds blobs with
  | none => { ret := false, num_leds_out := num_leds, rot := some rot, trans := trans }
  | some (list_points3d, list_points2d) =>
    let list_points2d_undistorted := cv.undistortPoints list_points2d camera_matrix dist_coeffs
    let s := cv.solvePnPRansac list_points3d list_points2d_undistorted rvec tvec
      use_extrinsic_guess
    { ret := true, num_leds_out := num_leds, rot := rvec_to_quat cv s.2.1, trans := s.2.2 }

/-! ### Specification vocabulary for the blob list -/

/-- The labelled blobs that count: scanning in list order, a blob is kept when its
`led_id` is non-negative and is not in `seen` nor carried by an earlier kept blob. -/
def first_labelled_from (seen : List Int) : List blob → List blob
  | [] => []
  | b :: bs =>
    if b.led_id < 0 ∨ b.led_id ∈ seen then first_labelled_from seen bs
    else b :: first_labelled_from (b.led_id :: seen) bs

/-- The distinct non-negative led_ids of a blob list, in order of first appearance. -/
def distinct_led_ids (blobs : List blob) : List Int :=
  (first_labelled_from [] blobs).map blob.led_id

/-- Loop invariant of both scans: the word `taken` records exactly the ids of `seen`. -/
def tracks (taken : Nat) (seen : List Int) : Prop :=
  ∀ i : Int, 0 ≤ i → i < 64 → (taken.testBit i.toNat = true ↔ i ∈ seen)

/-- The 3D point the second loop stores for a blob: `leds[led_id].pos`. -/
def point3d_of (leds : Nat → rift_led) (b : blob) : Point3f :=
  ⟨(leds b.led_id.toNat).pos.x, (leds b.led_id.toNat).pos.y, (leds b.led_id.toNat).pos.z⟩

/-- The 2D point the second loop stores for a blob: its centroid. -/
def point2d_of (b : blob) : Point2f := ⟨b.x, b.y⟩

/-! ## Pose helpers of `omath.c` used by the tracker -/

/-- Modelled from the spec: `oposef_init` of `omath.c` is not among the translated files;
"get_view_pose returns fusion's (world_position, orient) directly". -/
def oposef_init (pos : vec3f) (orient : quatf) : posef := ⟨pos, orient⟩

/-- Modelled from the spec: quaternion product of `omath.c` (not among the translated
files), the Hamilton product underlying "rotate X by Q". -/
def oquatf_mult (a b : quatf) : quatf :=
  { x := a.w * b.x + a.x * b.w + a.y * b.z - a.z * b.y
    y := a.w * b.y - a.x * b.z + a.y * b.w + a.z * b.x
    z := a.w * b.z + a.x * b.y - a.y * b.x + a.z * b.w
    w := a.w * b.w - a.x * b.x - a.y * b.y - a.z * b.z }

/-- Modelled from the spec: inverse of a unit quaternion (`omath.c` is not among the
translated files); "Inverse and composition are closed under unit quaternions". -/
def oquatf_inverse (q : quatf) : quatf := ⟨-q.x, -q.y, -q.z, q.w⟩

/-- Modelled from the spec: "rotate X by Q" (`omath.c` is not among the translated files),
the vector part of `q * (v, 0) * q⁻¹`. -/
def oquatf_get_rotated (q : quatf) (v : vec3f) : vec3f :=
  let r := oquatf_mult (oquatf_mult q ⟨v.x, v.y, v.z, 0⟩) (oquatf_inverse q)
  ⟨r.x, r.y, r.z⟩

/-- Modelled from the spec: `oposef_apply (me, xform, dest)` of `omath.c` (not among the
translated files); "Apply P to X = rotate X by Q then translate by V", composition of
poses by rotate-then-translate. -/
def oposef_apply (me xform : posef) : posef :=
  let p := oquatf_get_rotated xform.orient me.pos
  { pos := ⟨p.x + xform.pos.x, p.y + xform.pos.y, p.z + xform.pos.z⟩
    orient := oquatf_mult xform.orient me.orient }

/-- Modelled from the spec: `oposef_apply_inverse (me, xform, dest)` of `omath.c` (not among
the translated files); "pose inverse-apply", the inverse of `oposef_apply` for a unit
`xform.orient`: undo the translation, then rotate back. -/
def oposef_apply_inverse (me xform : posef) : posef :=
  let inv := oquatf_inverse xform.orient
  { pos := oquatf_get_rotated inv
      ⟨me.pos.x - xform.pos.x, me.pos.y - xform.pos.y, me.pos.z - xform.pos.z⟩
    orient := oquatf_mult inv me.orient }

/-- Modelled from the spec: `oposef_mirror_XZ` of `omath.c` (not among the translated
files); "flip y of position and (x,z) of the quaternion's vector part; w unchanged". -/
def oposef_mirror_XZ (p : posef) : posef :=
  { pos := ⟨p.pos.x, -p.pos.y, p.pos.z⟩
    orient := ⟨-p.orient.x, p.orient.y, -p.orient.z, p.orient.w⟩ }

/-- The constant `M_PI` of `math.h`. -/
def M_PI : ℚ := 3.14159265358979323846

/-! ## `rift-tracker.c` -/

/-- The record `rift_tracker_exposure_info` (`uint64_t local_ts`, `uint32_t hmd_ts`,
`uint16_t count`, `uint8_t led_pattern_phase`).  The fields are only copied and compared,
never computed with, so they are plain naturals. -/
structure rift_tracker_exposure_info where
  local_ts : Nat
  hmd_ts : Nat
  count : Nat
  led_pattern_phase : Nat
  deriving DecidableEq, Inhabited

/-- The fields of the fusion filter state that `rift-tracker.c` reads. -/
structure fusion where
  world_position : vec3f
  orient : quatf
  last_gravity_vector_time : ℚ
  grav_error_angle : ℚ
  deriving DecidableEq, Inhabited

/-- The fusion filter routines the tracker calls; the filter is not part of the
translated files. -/
structure fusion_ops where
  ofusion_update : fusion → ℚ → vec3f → vec3f → vec3f → fusion
  ofusion_tracker_update : fusion → ℚ → vec3f → quatf → fusion

/-- One slot of the ring `pending_imu_observations`. -/
structure rift_tracked_device_imu_observation where
  local_ts : Nat
  device_ts : Nat
  dt : ℚ
  ang_vel : vec3f
  accel : vec3f
  mag : vec3f
  simple_orient : quatf
  deriving DecidableEq, Inhabited

/-- The debug stream behind `debug_metadata`: whether a consumer is connected
(`ohmd_pw_debug_stream_connected`) and what has been pushed, each observation under its
`local_ts` (the JSON text is a function of the observation). -/
structure debug_stream where
  connected : Bool
  pushed : List (Nat × rift_tracked_device_imu_observation)
  deriving DecidableEq

/-- The record `rift_tracked_device`, without the LED model and the lock.
`debug_metadata = none` is the null pointer. -/
structure rift_tracked_device where
  id : Int
  fusion : fusion
  fusion_to_model : posef
  last_device_ts : Nat
  debug_metadata : Option debug_stream
  num_pending_imu_observations : Nat
  pending_imu_observations : List rift_tracked_device_imu_observation
  deriving DecidableEq

/-- The record `rift_tracker_ctx_s`, without the USB and sensor handles.  `devices` holds
all `RIFT_MAX_TRACKED_DEVICES` slots of the array, registered or not. -/
structure rift_tracker_ctx where
  have_exposure_info : Bool
  exposure_info : rift_tracker_exposure_info
  devices : List rift_tracked_device
  n_devices : Nat
  deriving DecidableEq

/-- The function `rift_tracked_device_send_imu_debug`. -/
def rift_tracked_device_send_imu_debug (dev : rift_tracked_device) : rift_tracked_device :=
  if dev.num_pending_imu_observations = 0 then dev
  else
    { dev with
      debug_metadata :=
        match dev.debug_metadata with
        | none => none
        | some s =>
          if s.connected then
            some { s with
              pushed := s.pushed ++
                ((dev.pending_imu_observations.take dev.num_pending_imu_observations).map
                  fun obs => (obs.local_ts, obs)) }
          else some s
      num_pending_imu_observations := 0 }

/-- The function `rift_tracker_get_exposure_info`: the returned flag and `*info`. -/
def rift_tracker_get_exposure_info (ctx : rift_tracker_ctx) :
    Bool × rift_tracker_exposure_info :=
  (ctx.have_exposure_info, ctx.exposure_info)

/-- The function `rift_tracker_update_exposure`; `now` is the value `ohmd_monotonic_get`
returns when it is called.  The loop over `i < RIFT_MAX_TRACKED_DEVICES` visits every slot
of `devices`. -/
def rift_tracker_update_exposure (ctx : rift_tracker_ctx) (now : Nat)
    (exposure_count exposure_hmd_ts led_pattern_phase : Nat) : rift_tracker_ctx :=
  let ctx1 :=
    if ctx.exposure_info.led_pattern_phase ≠ led_pattern_phase then
      { ctx with
        exposure_info := { ctx.exposure_info with led_pattern_phase := led_pattern_phase } }
    else ctx
  if ctx1.exposure_info.count ≠ exposure_count then
    { ctx1 with
      exposure_info :=
        { local_ts := now, count := exposure_count, hmd_ts := exposure_hmd_ts,
          led_pattern_phase := led_pattern_phase }
      have_exposure_info := true
      devices := ctx1.devices.map rift_tracked_device_send_imu_debug }
  else ctx1

/-- The function `rift_tracked_device_imu_update`; the capacity of the ring,
`RIFT_MAX_PENDING_IMU_OBSERVATIONS` of `rift-tracker.h`, is a parameter. -/
def rift_tracked_device_imu_update (F : fusion_ops) (RIFT_MAX_PENDING_IMU_OBSERVATIONS : Nat)
    (dev : rift_tracked_device) (local_ts device_ts : Nat) (dt : ℚ)
    (ang_vel accel mag_field : vec3f) : rift_tracked_device :=
  let fusion1 := F.ofusion_update dev.fusion dt ang_vel accel mag_field
  let obs : rift_tracked_device_imu_observation :=
    { local_ts := local_ts, device_ts := device_ts, dt := dt, ang_vel := ang_vel,
      accel := accel, mag := mag_field, simple_orient := fusion1.orient }
  let dev1 : rift_tracked_device :=
    { dev with
      fusion := fusion1
      last_device_ts := device_ts
      pending_imu_observations :=
        dev.pending_imu_observations.set dev.num_pending_imu_observations obs
      num_pending_imu_observations := dev.num_pending_imu_observations + 1 }
  if dev1.num_pending_imu_observations = RIFT_MAX_PENDING_IMU_OBSERVATIONS then
    rift_tracked_device_send_imu_debug dev1
  else dev1

/-- The function `rift_tracked_device_get_view_pose`: the value stored to `*pose`. -/
def rift_tracked_device_get_view_pose (dev : rift_tracked_device) : posef :=
  oposef_init dev.fusion.world_position dev.fusion.orient

/-- The arguments `rift_tracked_device_model_pose_update` passes to
`ofusion_tracker_update`: the time in seconds and the corrected pose. -/
def model_pose_handed (dev : rift_tracked_device)
    (exposure_info : rift_tracker_exposure_info) (pose : posef) : ℚ × posef :=
  let time : ℚ := (exposure_info.local_ts : ℚ) / 1000000000
  let pose1 := oposef_apply_inverse pose dev.fusion_to_model
  let pose2 := if dev.id = 0 then oposef_mirror_XZ pose1 else pose1
  (time, pose2)

/-- The function `rift_tracked_device_model_pose_update`: the device afterwards and the
contents of the in-out `*pose`.  `local_ts` is not used by the source either. -/
def rift_tracked_device_model_pose_update (F : fusion_ops) (dev : rift_tracked_device)
    (_local_ts : Nat) (exposure_info : rift_tracker_exposure_info) (pose : posef) :
    rift_tracked_device × posef :=
  let h := model_pose_handed dev exposure_info pose
  let dev1 := rift_tracked_device_send_imu_debug dev
  ({ dev1 with fusion := F.ofusion_tracker_update dev1.fusion h.1 h.2.pos h.2.orient }, h.2)

/-- The function `rift_tracked_device_get_model_pose`: the value stored to `*pose` and the
contents of `*gravity_error_rad` afterwards (`none` is the null pointer). -/
def rift_tracked_device_get_model_pose (dev : rift_tracked_device) (ts : ℚ)
    (gravity_error_rad : Option ℚ) : posef × Option ℚ :=
  let tmp := oposef_init dev.fusion.world_position dev.fusion.orient
  let tmp := if dev.id = 0 then oposef_mirror_XZ tmp else tmp
  let pose := oposef_apply tmp dev.fusion_to_model
  let g :=
    match gravity_error_rad with
    | none => none
    | some _ =>
      let time_since_gravity := ts - dev.fusion.last_gravity_vector_time
      if time_since_gravity > -0.5 ∧ time_since_gravity < 0.5 then
        some dev.fusion.grav_error_angle
      else some M_PI
  (pose, g)

/-! ### Sequences of tracker operations -/

/-- One call into the tracker; a device pointer is the index of its slot in `devices`. -/
inductive tracker_op where
  | imu_update (i : Nat) (local_ts device_ts : Nat) (dt : ℚ) (ang_vel accel mag_field : vec3f)
  | model_pose_update (i : Nat) (local_ts : Nat) (exposure_info : rift_tracker_exposure_info)
      (pose : posef)
  | update_exposure (now exposure_count exposure_hmd_ts led_pattern_phase : Nat)
  | get_view_pose (i : Nat)
  | get_model_pose (i : Nat) (ts : ℚ) (gravity_error_rad : Option ℚ)

/-- The tracker after one call. -/
def tracker_step (F : fusion_ops) (cap : Nat) (ctx : rift_tracker_ctx) :
    tracker_op → rift_tracker_ctx
  | .imu_update i local_ts device_ts dt ang_vel accel mag_field =>
    { ctx with
      devices := ctx.devices.modify
        (fun dev =>
          rift_tracked_device_imu_update F cap dev local_ts device_ts dt ang_vel accel mag_field)
        i }
  | .model_pose_update i local_ts exposure_info pose =>
    { ctx with
      devices := ctx.devices.modify
        (fun dev => (rift_tracked_device_model_pose_update F dev local_ts exposure_info pose).1)
        i }
  | .update_exposure now exposure_count exposure_hmd_ts led_pattern_phase =>
    rift_tracker_update_exposure ctx now exposure_count exposure_hmd_ts led_pattern_phase
  | .get_view_pose _ => ctx
  | .get_model_pose _ _ _ => ctx

/-- The tracker after a sequence of calls. -/
def tracker_run (F : fusion_ops) (cap : Nat) (ctx : rift_tracker_ctx)
    (ops : List tracker_op) : rift_tracker_ctx :=
  ops.foldl (tracker_step F cap) ctx

/-! ## Registration (`rift_tracker_add_device`) -/

/-- How a call of `rift_tracker_add_device` ends.  `aborted ctx`: the `assert` failed and
the process was terminated with the tracker in state `ctx`; nothing is returned to the
caller.  `returned ctx next_dev`: the call returned a pointer to slot `next_dev` and left
the tracker in state `ctx`. -/
inductive add_device_result where
  | aborted (ctx : rift_tracker_ctx)
  | returned (ctx : rift_tracker_ctx) (next_dev : Nat)
  deriving DecidableEq

/-- The function `rift_tracker_add_device`, built with assertions enabled.  The capacity
`RIFT_MAX_TRACKED_DEVICES` of `rift-tracker.h`, the state `ofusion_init` leaves and the
stream `ohmd_pw_debug_stream_new` returns are parameters.  The LED model is not part of
the device record, and the calls to `rift_sensor_add_device` after the unlock do not
write to the tracker.  `n_devices` is a `uint8_t`. -/
def rift_tracker_add_device (RIFT_MAX_TRACKED_DEVICES : Nat) (ofusion_init : fusion → fusion)
    (ohmd_pw_debug_stream_new : Int → Option debug_stream) (ctx : rift_tracker_ctx)
    (device_id : Int) (imu_pose : posef) : add_device_result :=
  if ¬ ctx.n_devices < RIFT_MAX_TRACKED_DEVICES then .aborted ctx
  else
    .returned
      { ctx with
        devices := ctx.devices.modify
          (fun next_dev =>
            { next_dev with
              id := device_id
              fusion := ofusion_init next_dev.fusion
              fusion_to_model := imu_pose
              debug_metadata := ohmd_pw_debug_stream_new device_id })
          ctx.n_devices
        n_devices := (ctx.n_devices + 1) % 256 }
      ctx.n_devices

/-! ## `wmr.c`: sample conversion -/

/-- Wrap-around of a sum computed in `int` (32 bits, two's complement). -/
def int32_wrap (z : Int) : Int := (z + 2147483648) % 4294967296 - 2147483648

/-- Addition in `int`. -/
def add32 (a b : Int) : Int := int32_wrap (a + b)

/-- The `int` sum `smp[axis][8*i+0] + ... + smp[axis][8*i+7]` of
`vec3f_from_hololens_gyro`, added left to right; `smp` is indexed as the C array
`int16_t smp[3][32]`. -/
def gyro_sum (smp : Nat → Nat → Int) (axis i : Nat) : Int :=
  add32 (add32 (add32 (add32 (add32 (add32 (add32 (smp axis (8 * i + 0))
    (smp axis (8 * i + 1))) (smp axis (8 * i + 2))) (smp axis (8 * i + 3)))
    (smp axis (8 * i + 4))) (smp axis (8 * i + 5))) (smp axis (8 * i + 6)))
    (smp axis (8 * i + 7))

/-- The function `vec3f_from_hololens_gyro`. -/
def vec3f_from_hololens_gyro (smp : Nat → Nat → Int) (i : Nat) : vec3f :=
  { x := (gyro_sum smp 1 i : ℚ) * 0.001 * -0.125
    y := (gyro_sum smp 0 i : ℚ) * 0.001 * -0.125
    z := (gyro_sum smp 2 i : ℚ) * 0.001 * -0.125 }

/-- The function `vec3f_from_hololens_accel`; `smp` is indexed as `int32_t smp[3][4]`. -/
def vec3f_from_hololens_accel (smp : Nat → Nat → Int) (i : Nat) : vec3f :=
  { x := (smp 1 i : ℚ) * 0.001 * -1.0
    y := (smp 0 i : ℚ) * 0.001 * -1.0
    z := (smp 2 i : ℚ) * 0.001 * -1.0 }

/-- The arithmetic mean of the eight sub-samples `smp[axis][8i .. 8i+7]`. -/
def gyro_mean (smp : Nat → Nat → Int) (axis i : Nat) : ℚ :=
  ((smp axis (8 * i + 0) + smp axis (8 * i + 1) + smp axis (8 * i + 2) +
    smp axis (8 * i + 3) + smp axis (8 * i + 4) + smp axis (8 * i + 5) +
    smp axis (8 * i + 6) + smp axis (8 * i + 7) : Int) : ℚ) / 8

/-! ## Matrix vocabulary -/

/-- The transpose of a 3x3 matrix. -/
def mat3x3.transpose (a : mat3x3) : mat3x3 :=
  ⟨a.m00, a.m10, a.m20, a.m01, a.m11, a.m21, a.m02, a.m12, a.m22⟩

/-- The product of two 3x3 matrices. -/
def mat3x3.mul (a b : mat3x3) : mat3x3 :=
  { m00 := a.m00 * b.m00 + a.m01 * b.m10 + a.m02 * b.m20
    m01 := a.m00 * b.m01 + a.m01 * b.m11 + a.m02 * b.m21
    m02 := a.m00 * b.m02 + a.m01 * b.m12 + a.m02 * b.m22
    m10 := a.m10 * b.m00 + a.m11 * b.m10 + a.m12 * b.m20
    m11 := a.m10 * b.m01 + a.m11 * b.m11 + a.m12 * b.m21
    m12 := a.m10 * b.m02 + a.m11 * b.m12 + a.m12 * b.m22
    m20 := a.m20 * b.m00 + a.m21 * b.m10 + a.m22 * b.m20
    m21 := a.m20 * b.m01 + a.m21 * b.m11 + a.m22 * b.m21
    m22 := a.m20 * b.m02 + a.m21 * b.m12 + a.m22 * b.m22 }

/-- The determinant of a 3x3 matrix. -/
def mat3x3.det (a : mat3x3) : ℚ :=
  a.m00 * (a.m11 * a.m22 - a.m12 * a.m21) - a.m01 * (a.m10 * a.m22 - a.m12 * a.m20) +
    a.m02 * (a.m10 * a.m21 - a.m11 * a.m20)

/-! ## `wmr.c`: sensor messages -/

/-- The fields of `hololens_sensors_packet` that `handle_tracker_sensor_msg` reads:
`uint64_t gyro_timestamp[4]`, `int16_t gyro[3][32]` and `int32_t accel[3][4]`, indexed as
the C arrays. -/
structure hololens_sensors_packet where
  gyro_timestamp : Nat → Nat
  gyro : Nat → Nat → Int
  accel : Nat → Nat → Int

/-- The fields of `wmr_priv` that `handle_tracker_sensor_msg` touches. -/
structure wmr_priv where
  sensor_fusion : fusion
  raw_accel : vec3f
  raw_gyro : vec3f
  sensor : hololens_sensors_packet

/-- The constant `TICK_LEN`, `1.0f / 10000000.0f`. -/
def TICK_LEN : ℚ := 1 / 10000000

/-- The value of `tick_delta` in one round of the loop: 1000, or for a positive
`last_sample_tick` the difference of two `uint64_t` values, taken modulo `2 ^ 64`. -/
def tick_delta (last_sample_tick gyro_timestamp : Nat) : Nat :=
  if last_sample_tick > 0 then
    (gyro_timestamp + 18446744073709551616 - last_sample_tick) % 18446744073709551616
  else 1000

/-- The loop of `handle_tracker_sensor_msg` with `n` rounds to go, at index `i`. -/
def sensor_msg_loop (F : fusion_ops) (s : hololens_sensors_packet) :
    Nat → Nat → Nat → wmr_priv → wmr_priv
  | 0, _, _, priv => priv
  | n + 1, i, last_sample_tick, priv =>
    let dt : ℚ := (tick_delta last_sample_tick (s.gyro_timestamp i) : ℚ) * TICK_LEN
    let raw_gyro := vec3f_from_hololens_gyro s.gyro i
    let raw_accel := vec3f_from_hololens_accel s.accel i
    sensor_msg_loop F s n (i + 1) (s.gyro_timestamp i)
      { priv with
        raw_gyro := raw_gyro
        raw_accel := raw_accel
        sensor_fusion := F.ofusion_update priv.sensor_fusion dt raw_gyro raw_accel ⟨0, 0, 0⟩ }

/-- The function `handle_tracker_sensor_msg`.  `hololens_sensors_decode_packet` (not part
of the translated files) yields its flag and the contents of `priv->sensor` after the
call; a failed decode is only logged. -/
def handle_tracker_sensor_msg (F : fusion_ops)
    (hololens_sensors_decode_packet :
      hololens_sensors_packet → List Nat → Bool × hololens_sensors_packet)
    (priv : wmr_priv) (buffer : List Nat) : wmr_priv :=
  let last_sample_tick := priv.sensor.gyro_timestamp 3
  let s := (hololens_sensors_decode_packet priv.sensor buffer).2
  sensor_msg_loop F s 4 0 last_sample_tick { priv with sensor := s }

/-! ## `wmr.c`: configuration block -/

/-- How the fields `json_start` and `json_size` of `wmr_config_header` (declared in
`wmr.h`) are read from the bytes of the buffer. -/
structure wmr_config_layout where
  json_start : List Nat → Nat
  json_size : List Nat → Nat

/-- The loop of `decrypt_config` from index `i`; the header is read again in every round.
`hdr->json_size - sizeof(uint16_t)` is computed in `size_t`.  `none`: the fuel ran out. -/
def decrypt_config_loop (hdr : wmr_config_layout) (wmr_config_key : List Nat) :
    Nat → Nat → List Nat → Option (List Nat)
  | 0, _, _ => none
  | fuel + 1, i, config =>
    if i < (hdr.json_size config + 18446744073709551616 - 2) % 18446744073709551616 then
      decrypt_config_loop hdr wmr_config_key fuel (i + 1)
        (config.modify (fun b => b ^^^ wmr_config_key.getD (i % wmr_config_key.length) 0)
          (hdr.json_start config + 2 + i))
    else some config

/-- The function `decrypt_config` on the bytes of the buffer. -/
def decrypt_config (hdr : wmr_config_layout) (wmr_config_key : List Nat) (fuel : Nat)
    (config : List Nat) : Option (List Nat) :=
  decrypt_config_loop hdr wmr_config_key fuel 0 config

/-- Loop invariant of `decrypt_config`: `buf` is `config` with the first `i` payload bytes
XORed with the key. -/
def xored_upto (wmr_config_key : List Nat) (start i : Nat) (config buf : List Nat) : Prop :=
  buf.length = config.length ∧
    ∀ k, buf[k]? =
      if start + 2 ≤ k ∧ k < start + 2 + i then
        config[k]?.map fun b => b ^^^ wmr_config_key.getD ((k - (start + 2)) % wmr_config_key.length) 0
      else config[k]?

/-! ## Concrete inputs -/

/-- Library routines for which the robust solver always reports failure and leaves `rvec`
and `tvec` as they were passed; `Rodrigues` yields the zero vector (as for the identity)
and the other routines are placeholders. -/
def cv_solver_fails : cv_ops :=
  { Rodrigues := fun _ => ⟨0, 0, 0⟩
    undistortPoints := fun pts _ _ => pts
    solvePnPRansac := fun _ _ rvec tvec _ => (false, rvec, tvec)
    sqrt := fun a => a
    oquatf_init_axis := fun v angle => ⟨v.x, v.y, v.z, angle⟩ }

/-- A constellation with LED `i` at `(i / 100, 0, 0)`. -/
def leds_on_axis : Nat → rift_led := fun i => ⟨⟨(i : ℚ) / 100, 0, 0⟩⟩

/-- Five blobs carrying two distinct labels: 7 twice, 3 once, and two unlabelled blobs. -/
def blobs_two_labels : List blob :=
  [⟨10, 20, 7⟩, ⟨11, 21, -1⟩, ⟨12, 22, 7⟩, ⟨13, 23, 3⟩, ⟨14, 24, -1⟩]

/-- Six blobs carrying four distinct labels, with one repeat and one unlabelled blob. -/
def blobs_four_labels : List blob :=
  [⟨10, 20, 2⟩, ⟨11, 21, -1⟩, ⟨12, 22, 0⟩, ⟨13, 23, 2⟩, ⟨14, 24, 5⟩, ⟨15, 25, 7⟩]

/-- The identity matrix. -/
def mat_identity : mat3x3 := ⟨1, 0, 0, 0, 1, 0, 0, 0, 1⟩

/-- The identity rotation. -/
def quat_identity : quatf := ⟨0, 0, 0, 1⟩

/-- A fusion filter that integrates nothing and takes every correction as its state. -/
def fusion_store : fusion_ops :=
  { ofusion_update := fun f _ _ _ _ => f
    ofusion_tracker_update := fun f _ pos orient =>
      { f with world_position := pos, orient := orient } }

/-- The identity pose. -/
def pose_identity : posef := ⟨⟨0, 0, 0⟩, quat_identity⟩

/-- A device slot as `rift_tracker_new` and `rift_tracker_add_device` leave it: fusion at
rest, identity `fusion_to_model`, an empty ring of `cap` slots, debug stream not connected. -/
def device_fresh (id : Int) (cap : Nat) : rift_tracked_device :=
  { id := id
    fusion := ⟨⟨0, 0, 0⟩, quat_identity, 0, 0⟩
    fusion_to_model := pose_identity
    last_device_ts := 0
    debug_metadata := some ⟨false, []⟩
    num_pending_imu_observations := 0
    pending_imu_observations := List.replicate cap default }

/-- A tracker with a table of three slots and rings of four slots, two devices registered,
no exposure seen yet (the context is allocated zeroed). -/
def tracker_fresh : rift_tracker_ctx :=
  { have_exposure_info := false
    exposure_info := ⟨0, 0, 0, 0⟩
    devices := [device_fresh 0 4, device_fresh 1 4, device_fresh 2 4]
    n_devices := 2 }

/-- Three IMU samples for each of the two registered devices. -/
def ops_three_samples_each : List tracker_op :=
  [ .imu_update 0 10 1 0 ⟨0, 0, 0⟩ ⟨0, 0, 0⟩ ⟨0, 0, 0⟩,
    .imu_update 1 11 1 0 ⟨0, 0, 0⟩ ⟨0, 0, 0⟩ ⟨0, 0, 0⟩,
    .imu_update 0 20 2 0 ⟨0, 0, 0⟩ ⟨0, 0, 0⟩ ⟨0, 0, 0⟩,
    .imu_update 1 21 2 0 ⟨0, 0, 0⟩ ⟨0, 0, 0⟩ ⟨0, 0, 0⟩,
    .imu_update 0 30 3 0 ⟨0, 0, 0⟩ ⟨0, 0, 0⟩ ⟨0, 0, 0⟩,
    .imu_update 1 31 3 0 ⟨0, 0, 0⟩ ⟨0, 0, 0⟩ ⟨0, 0, 0⟩ ]

/-- The fresh tracker after three IMU samples for each registered device. -/
def tracker_three_pending : rift_tracker_ctx :=
  tracker_run fusion_store 4 tracker_fresh ops_three_samples_each

/-- A pose at `(1, 2, 3)` turned by 180 degrees about Y. -/
def pose_half_turn_y : posef := ⟨⟨1, 2, 3⟩, ⟨0, 1, 0, 0⟩⟩

/-- A device whose last gravity update was at time 0 with a zero gravity error. -/
def device_gravity_at_zero : rift_tracked_device := device_fresh 0 4

/-- A tracker whose table of three slots is full. -/
def tracker_full : rift_tracker_ctx := { tracker_fresh with n_devices := 3 }

/-- A gyro block in which every sub-sample is 8. -/
def gyro_all_eight : Nat → Nat → Int := fun _ _ => 8

/-- Library routines for which the robust solver reports success with a zero rotation
vector (the identity rotation); `sqrt` is exact at 0 and the quaternion routine is a
placeholder. -/
def cv_solver_zero_rvec : cv_ops :=
  { Rodrigues := fun _ => ⟨0, 0, 0⟩
    undistortPoints := fun pts _ _ => pts
    solvePnPRansac := fun _ _ _ tvec _ => (true, ⟨0, 0, 0⟩, tvec)
    sqrt := fun a => a
    oquatf_init_axis := fun v angle => ⟨v.x, v.y, v.z, angle⟩ }

/-! ## Lock events of the tracker operations -/

/-- The mutexes of the tracker: `tracker_lock` and the `device_lock` of slot `i`. -/
inductive lock_id where
  | tracker_lock
  | device_lock (i : Nat)
  deriving DecidableEq

/-- A call of `ohmd_lock_mutex` or `ohmd_unlock_mutex`. -/
inductive lock_event where
  | lock (l : lock_id)
  | unlock (l : lock_id)
  deriving DecidableEq

/-- A call of one of the seven operations of `rift-tracker.c`; a device pointer is the
index of its slot. -/
inductive tracker_call where
  | add_device (device_id : Int) (imu_pose : posef)
  | get_exposure_info
  | update_exposure (now exposure_count exposure_hmd_ts led_pattern_phase : Nat)
  | imu_update (i : Nat) (local_ts device_ts : Nat) (dt : ℚ) (ang_vel accel mag_field : vec3f)
  | get_view_pose (i : Nat)
  | model_pose_update (i : Nat) (local_ts : Nat) (exposure_info : rift_tracker_exposure_info)
      (pose : posef)
  | get_model_pose (i : Nat) (ts : ℚ) (gravity_error_rad : Option ℚ)

/-- The lock events of the loop of `rift_tracker_update_exposure` over the slots `slots`. -/
def device_loop_trace (slots : List Nat) : List lock_event :=
  slots.flatMap fun i => [.lock (.device_lock i), .unlock (.device_lock i)]

/-- The calls of `ohmd_lock_mutex` and `ohmd_unlock_mutex` that an operation of
`rift-tracker.c` makes, in program order, read off the source of each function.
`rift_tracker_add_device` asserts before it locks; `rift_tracker_update_exposure` loops
over all slots of the table only when the count differs. -/
def lock_trace (RIFT_MAX_TRACKED_DEVICES : Nat) (ctx : rift_tracker_ctx) :
    tracker_call → List lock_event
  | .add_device _ _ =>
    if ¬ ctx.n_devices < RIFT_MAX_TRACKED_DEVICES then []
    else [.lock .tracker_lock, .unlock .tracker_lock]
  | .get_exposure_info => [.lock .tracker_lock, .unlock .tracker_lock]
  | .update_exposure _ exposure_count _ _ =>
    [.lock .tracker_lock] ++
      (if ctx.exposure_info.count ≠ exposure_count then
        device_loop_trace (List.range RIFT_MAX_TRACKED_DEVICES)
      else []) ++
      [.unlock .tracker_lock]
  | .imu_update i _ _ _ _ _ _ => [.lock (.device_lock i), .unlock (.device_lock i)]
  | .get_view_pose i => [.lock (.device_lock i), .unlock (.device_lock i)]
  | .model_pose_update i _ _ _ => [.lock (.device_lock i), .unlock (.device_lock i)]
  | .get_model_pose i _ _ => [.lock (.device_lock i), .unlock (.device_lock i)]

/-- The locks held after an event, most recent first. -/
def held_step (held : List lock_id) : lock_event → List lock_id
  | .lock l => l :: held
  | .unlock l => held.erase l

/-- Each event of a trace paired with the locks held just before it. -/
def held_before : List lock_id → List lock_event → List (List lock_id × lock_event)
  | _, [] => []
  | held, e :: es => (held, e) :: held_before (held_step held e) es

/-- The locks held at the end of a trace. -/
def held_after (held : List lock_id) (es : List lock_event) : List lock_id :=
  es.foldl held_step held

/-- Whether a call is `rift_tracker_update_exposure`. -/
def tracker_call.is_update_exposure : tracker_call → Bool
  | .update_exposure _ _ _ _ => true
  | _ => false

/-- A controller (id 1) whose `fusion_to_model` turns about Z (unit quaternion
`(0, 0, 3/5, 4/5)`) and shifts by `(1, 0, 2)`. -/
def device_offset_controller : rift_tracked_device :=
  { device_fresh 1 4 with fusion_to_model := ⟨⟨1, 0, 2⟩, ⟨0, 0, 3 / 5, 4 / 5⟩⟩ }

/-- A sensor packet with gyro timestamps 1000, 2000, 3000, 4000 and constant samples. -/
def packet_steady : hololens_sensors_packet :=
  { gyro_timestamp := fun i => 1000 * (i + 1)
    gyro := fun _ _ => 8
    accel := fun _ _ => 1 }

/-- A headset state whose previous packet ended at tick 500. -/
def priv_after_first_packet : wmr_priv :=
  { sensor_fusion := ⟨⟨0, 0, 0⟩, quat_identity, 0, 0⟩
    raw_accel := ⟨0, 0, 0⟩
    raw_gyro := ⟨0, 0, 0⟩
    sensor := { packet_steady with gyro_timestamp := fun _ => 500 } }

/-- A header layout with one-byte fields: `json_start` in byte 0, `json_size` in byte 1. -/
def layout_two_bytes : wmr_config_layout :=
  { json_start := fun c => c.getD 0 0
    json_size := fun c => c.getD 1 0 }

/-- A config buffer: start 2, size 5, the two length bytes, then three payload bytes. -/
def config_small : List Nat := [2, 5, 9, 9, 1, 2, 3, 7]

/-- The fusion state after one `ofusion_update` per tick delta, the `k`-th call passing
`dt = delta * TICK_LEN` and the `(i + k)`-th gyro and accel samples of the packet `s`. -/
def fusion_after_deltas (F : fusion_ops) (s : hololens_sensors_packet) :
    Nat → List Nat → fusion → fusion
  | _, [], f => f
  | i, delta :: deltas, f =>
    fusion_after_deltas F s (i + 1) deltas
      (F.ofusion_update f ((delta : ℚ) * TICK_LEN) (vec3f_from_hololens_gyro s.gyro i)
        (vec3f_from_hololens_accel s.accel i) ⟨0, 0, 0⟩)

/-! # Theorems -/

/-! ## Lemmas on the blob scan -/

/-- Testing a word against a single-bit mask reads that bit. -/
theorem and_two_pow_ne_zero_iff (t k : Nat) : t &&& 2 ^ k ≠ 0 ↔ t.testBit k = true := by
  constructor
  · intro h
    obtain ⟨i, hi⟩ := Nat.ne_zero_implies_bit_true h
    simp only [Nat.testBit_and, Nat.testBit_two_pow, Bool.and_eq_true, decide_eq_true_eq] at hi
    obtain ⟨hb, rfl⟩ := hi
    exact hb
  · intro h h0
    have h1 := congrArg (fun n => n.testBit k) h0
    simp [h, Nat.testBit_two_pow_self] at h1

/-- The mask of an id in `0..63` is the power of two of that id. -/
theorem led_bit_eq (i : Int) (h64 : i < 64) : led_bit i = 2 ^ i.toNat := by
  have h : i.toNat < 64 := by omega
  simp [led_bit, Nat.one_shiftLeft, Nat.mod_eq_of_lt h]

theorem tracks_zero : tracks 0 [] := by
  intro i _ _
  simp

theorem tracks_test {taken : Nat} {seen : List Int} (h : tracks taken seen) (i : Int)
    (h0 : 0 ≤ i) (h64 : i < 64) : taken &&& led_bit i ≠ 0 ↔ i ∈ seen := by
  rw [led_bit_eq i h64, and_two_pow_ne_zero_iff]
  exact h i h0 h64

theorem tracks_insert {taken : Nat} {seen : List Int} (h : tracks taken seen) (i : Int)
    (h0 : 0 ≤ i) (h64 : i < 64) : tracks (taken ||| led_bit i) (i :: seen) := by
  intro k hk0 hk64
  rw [led_bit_eq i h64]
  simp only [Nat.testBit_or, Nat.testBit_two_pow, Bool.or_eq_true, decide_eq_true_eq,
    List.mem_cons]
  rw [h k hk0 hk64]
  constructor
  · rintro (h1 | h1)
    · exact Or.inr h1
    · left; omega
  · rintro (h1 | h1)
    · right; omega
    · exact Or.inl h1

/-- The first loop adds to `num_leds` the number of blobs that `first_labelled_from` keeps. -/
theorem count_leds_loop_eq (bs : List blob) :
    ∀ (taken n : Nat) (seen : List Int), (∀ b ∈ bs, b.led_id < 64) → tracks taken seen →
      (count_leds_loop bs taken n).2 = n + (first_labelled_from seen bs).length := by
  induction bs with
  | nil => intro taken n seen _ _; simp [count_leds_loop, first_labelled_from]
  | cons b bs ih =>
    intro taken n seen h64 ht
    have hb : b.led_id < 64 := h64 b (List.mem_cons_self _ _)
    have hbs : ∀ c ∈ bs, c.led_id < 64 := fun c hc => h64 c (List.mem_cons_of_mem _ hc)
    by_cases hneg : b.led_id < 0
    · simp [count_leds_loop, first_labelled_from, hneg, ih taken n seen hbs ht]
    · have h0 : 0 ≤ b.led_id := by omega
      by_cases hseen : b.led_id ∈ seen
      · have htest := (tracks_test ht b.led_id h0 hb).2 hseen
        simp [count_leds_loop, first_labelled_from, hneg, hseen, htest, ih taken n seen hbs ht]
      · have htest : ¬ (taken &&& led_bit b.led_id ≠ 0) :=
          fun hc => hseen ((tracks_test ht b.led_id h0 hb).1 hc)
        simp only [count_leds_loop, first_labelled_from, hneg, hseen, htest, if_false,
          or_self, List.length_cons]
        rw [ih _ (n + 1) (b.led_id :: seen) hbs (tracks_insert ht b.led_id h0 hb)]
        omega

/-- The kept blobs carry exactly the non-negative ids outside `seen`. -/
theorem mem_first_labelled_ids (bs : List blob) :
    ∀ (seen : List Int) (i : Int),
      i ∈ (first_labelled_from seen bs).map blob.led_id ↔
        (i ∈ bs.map blob.led_id ∧ 0 ≤ i ∧ i ∉ seen) := by
  induction bs with
  | nil => intro seen i; simp [first_labelled_from]
  | cons b bs ih =>
    intro seen i
    by_cases hskip : b.led_id < 0 ∨ b.led_id ∈ seen
    · simp only [first_labelled_from, hskip, if_true, ih seen i, List.map_cons, List.mem_cons]
      constructor
      · rintro ⟨h1, h2, h3⟩
        exact ⟨Or.inr h1, h2, h3⟩
      · rintro ⟨h1 | h1, h2, h3⟩
        · subst h1
          rcases hskip with h | h
          · omega
          · exact absurd h h3
        · exact ⟨h1, h2, h3⟩
    · simp only [first_labelled_from, hskip, if_false, List.map_cons, List.mem_cons,
        ih (b.led_id :: seen) i]
      push_neg at hskip
      constructor
      · rintro (h1 | ⟨h1, h2, h3⟩)
        · subst h1
          exact ⟨Or.inl rfl, hskip.1, hskip.2⟩
        · exact ⟨Or.inr h1, h2, fun h => h3 (Or.inr h)⟩
      · rintro ⟨h1 | h1, h2, h3⟩
        · exact Or.inl h1
        · by_cases hi : i = b.led_id
          · exact Or.inl hi
          · right
            refine ⟨h1, h2, ?_⟩
            rintro (h | h)
            · exact hi h
            · exact h3 h

/-- No led_id is kept twice. -/
theorem first_labelled_ids_nodup (bs : List blob) :
    ∀ seen : List Int, ((first_labelled_from seen bs).map blob.led_id).Nodup := by
  induction bs with
  | nil => intro seen; simp [first_labelled_from]
  | cons b bs ih =>
    intro seen
    by_cases hskip : b.led_id < 0 ∨ b.led_id ∈ seen
    · simp only [first_labelled_from, hskip, if_true]
      exact ih seen
    · simp only [first_labelled_from, hskip, if_false, List.map_cons, List.nodup_cons]
      refine ⟨?_, ih _⟩
      intro hmem
      have h := (mem_first_labelled_ids bs (b.led_id :: seen) b.led_id).1 hmem
      exact h.2.2 (List.mem_cons_self _ _)

/-- The kept blobs are as many as the distinct non-negative led_ids of the list. -/
theorem first_labelled_length (blobs : List blob) :
    (first_labelled_from [] blobs).length =
      ((blobs.map blob.led_id).filter (fun i => decide (0 ≤ i))).toFinset.card := by
  have hnd := first_labelled_ids_nodup blobs []
  rw [← List.length_map (first_labelled_from [] blobs) blob.led_id,
    ← List.toFinset_card_of_nodup hnd]
  congr 1
  ext i
  simp only [List.mem_toFinset, List.mem_filter, decide_eq_true_eq]
  rw [mem_first_labelled_ids blobs [] i]
  simp

/-- The first pass counts the distinct non-negative led_ids. -/
theorem count_leds_eq_card (blobs : List blob) (h64 : ∀ b ∈ blobs, b.led_id < 64) :
    count_leds blobs =
      ((blobs.map blob.led_id).filter (fun i => decide (0 ≤ i))).toFinset.card := by
  rw [count_leds, count_leds_loop_eq blobs 0 0 [] h64 tracks_zero, first_labelled_length]
  simp

/-- Overwriting the slot right after a prefix. -/
theorem set_at_length_append {α : Type} (pre : List α) (r a : α) (rest : List α) :
    (pre ++ r :: rest).set pre.length a = (pre ++ [a]) ++ rest := by
  induction pre with
  | nil => simp
  | cons p ps ih => simp [ih]

/-- The second loop fills the slots from `j` on with the points of the kept blobs. -/
theorem fill_points_loop_eq (leds : Nat → rift_led) (bs : List blob) :
    ∀ (taken j N : Nat) (seen : List Int) (pre3 rest3 : List Point3f)
      (pre2 rest2 : List Point2f),
      (∀ b ∈ bs, b.led_id < 64) → tracks taken seen →
      N = j + (first_labelled_from seen bs).length →
      pre3.length = j → pre2.length = j →
      rest3.length = (first_labelled_from seen bs).length →
      rest2.length = (first_labelled_from seen bs).length →
      fill_points_loop leds N bs taken j (pre3 ++ rest3) (pre2 ++ rest2) =
        (N, pre3 ++ (first_labelled_from seen bs).map (point3d_of leds),
          pre2 ++ (first_labelled_from seen bs).map point2d_of) := by
  induction bs with
  | nil =>
    intro taken j N seen pre3 rest3 pre2 rest2 _ _ hN _ _ h3 h2
    simp only [first_labelled_from, List.length_nil, List.length_eq_zero] at h3 h2 hN
    subst h3 h2
    simp [fill_points_loop, first_labelled_from, hN]
  | cons b bs ih =>
    intro taken j N seen pre3 rest3 pre2 rest2 h64 ht hN hp3 hp2 h3 h2
    have hb : b.led_id < 64 := h64 b (List.mem_cons_self _ _)
    have hbs : ∀ c ∈ bs, c.led_id < 64 := fun c hc => h64 c (List.mem_cons_of_mem _ hc)
    by_cases hj : j < N
    · by_cases hneg : b.led_id < 0
      · have hf : first_labelled_from seen (b :: bs) = first_labelled_from seen bs := by
          simp [first_labelled_from, hneg]
        rw [hf] at hN h3 h2 ⊢
        simp only [fill_points_loop, hj, hneg, not_true_eq_false, if_false, if_true]
        exact ih taken j N seen pre3 rest3 pre2 rest2 hbs ht hN hp3 hp2 h3 h2
      · have h0 : 0 ≤ b.led_id := by omega
        by_cases hseen : b.led_id ∈ seen
        · have htest := (tracks_test ht b.led_id h0 hb).2 hseen
          have hf : first_labelled_from seen (b :: bs) = first_labelled_from seen bs := by
            simp [first_labelled_from, hseen]
          rw [hf] at hN h3 h2 ⊢
          simp only [fill_points_loop, hj, hneg, not_true_eq_false, if_false]
          rw [if_pos htest]
          exact ih taken j N seen pre3 rest3 pre2 rest2 hbs ht hN hp3 hp2 h3 h2
        · have htest : ¬ (taken &&& led_bit b.led_id ≠ 0) :=
            fun hc => hseen ((tracks_test ht b.led_id h0 hb).1 hc)
          have hf : first_labelled_from seen (b :: bs) =
              b :: first_labelled_from (b.led_id :: seen) bs := by
            simp [first_labelled_from, hneg, hseen]
          rw [hf] at hN h3 h2 ⊢
          simp only [List.length_cons] at hN h3 h2
          obtain ⟨r3, rest3, rfl⟩ := List.exists_cons_of_length_eq_add_one h3
          obtain ⟨r2, rest2, rfl⟩ := List.exists_cons_of_length_eq_add_one h2
          simp only [List.length_cons, Nat.add_right_cancel_iff] at h3 h2
          simp only [fill_points_loop, hj, hneg, htest, not_true_eq_false, if_false]
          have e3 := set_at_length_append pre3 r3 (point3d_of leds b) rest3
          have e2 := set_at_length_append pre2 r2 (point2d_of b) rest2
          rw [hp3] at e3
          rw [hp2] at e2
          simp only [point3d_of, point2d_of] at e3 e2
          rw [e3, e2]
          have := ih (taken ||| led_bit b.led_id) (j + 1) N (b.led_id :: seen)
            (pre3 ++ [point3d_of leds b]) rest3 (pre2 ++ [point2d_of b]) rest2 hbs
            (tracks_insert ht b.led_id h0 hb) (by omega) (by simp [hp3]) (by simp [hp2]) h3 h2
          simp only [point3d_of, point2d_of] at this ⊢
          rw [this]
          simp [point3d_of, point2d_of]
    · have hm : (first_labelled_from seen (b :: bs)).length = 0 := by omega
      have hnil : first_labelled_from seen (b :: bs) = [] := List.length_eq_zero.1 hm
      rw [hnil] at h3 h2 ⊢
      simp only [List.length_nil, List.length_eq_zero] at h3 h2
      subst h3 h2
      simp only [fill_points_loop, hj, not_false_eq_true, if_true, List.map_nil]
      have : j = N := by omega
      rw [this]

/-- When the first check passes, the vectors handed on are the points of the kept blobs. -/
theorem solver_points_eq (leds : Nat → rift_led) (blobs : List blob)
    (h64 : ∀ b ∈ blobs, b.led_id < 64) :
    solver_points leds blobs =
      if count_leds blobs < 4 then none
      else some ((first_labelled_from [] blobs).map (point3d_of leds),
        (first_labelled_from [] blobs).map point2d_of) := by
  have hcount : count_leds blobs = (first_labelled_from [] blobs).length := by
    rw [count_leds, count_leds_loop_eq blobs 0 0 [] h64 tracks_zero]
    simp
  have hfill := fill_points_loop_eq leds blobs 0 0 (count_leds blobs) [] [] 
    (List.replicate (count_leds blobs) default) [] (List.replicate (count_leds blobs) default)
    h64 tracks_zero (by omega) rfl rfl (by simp [hcount]) (by simp [hcount])
  simp only [List.nil_append] at hfill
  unfold solver_points
  by_cases h4 : count_leds blobs < 4
  · simp [h4]
  · simp only [h4, if_false, hfill]
    simp [resize, hcount]

/-- A kept blob is the first blob of the list that carries its led_id. -/
theorem find_first_labelled (bs : List blob) :
    ∀ (seen : List Int) (b : blob), b ∈ first_labelled_from seen bs →
      bs.find? (fun c => decide (c.led_id = b.led_id)) = some b := by
  induction bs with
  | nil => intro seen b hb; simp [first_labelled_from] at hb
  | cons c cs ih =>
    intro seen b hb
    have hid := (mem_first_labelled_ids (c :: cs) seen b.led_id).1
      (List.mem_map_of_mem _ hb)
    by_cases hskip : c.led_id < 0 ∨ c.led_id ∈ seen
    · simp only [first_labelled_from, hskip, if_true] at hb
      have hne : ¬ c.led_id = b.led_id := by
        intro he
        rcases hskip with h | h
        · omega
        · exact hid.2.2 (he ▸ h)
      simp only [List.find?_cons, hne, decide_False]
      exact ih seen b hb
    · simp only [first_labelled_from, hskip, if_false, List.mem_cons] at hb
      rcases hb with rfl | hb
      · simp
      · have hid2 := (mem_first_labelled_ids cs (c.led_id :: seen) b.led_id).1
          (List.mem_map_of_mem _ hb)
        have hne : ¬ c.led_id = b.led_id := fun he => hid2.2.2 (by simp [he])
        simp only [List.find?_cons, hne, decide_False]
        exact ih _ b hb

/-- The list `distinct_led_ids` has no repeats. -/
theorem distinct_led_ids_nodup (blobs : List blob) : (distinct_led_ids blobs).Nodup :=
  first_labelled_ids_nodup blobs []

/-- The list `distinct_led_ids` holds exactly the non-negative led_ids of the blobs. -/
theorem mem_distinct_led_ids (blobs : List blob) (i : Int) :
    i ∈ distinct_led_ids blobs ↔ i ∈ blobs.map blob.led_id ∧ 0 ≤ i := by
  rw [distinct_led_ids, mem_first_labelled_ids blobs [] i]
  simp

/-! ## The claims on `estimate_initial_pose` -/

/-- C1: when the led_ids are negative or in 0..63 and the number N of distinct non-negative
led_ids is below 4, `estimate_initial_pose` returns false, stores N to `*num_leds_out` and
leaves `*rot` and `*trans` as the caller passed them. -/
theorem estimate_initial_pose_too_few_leds (cv : cv_ops) (blobs : List blob)
    (leds : Nat → rift_led) (camera_matrix : mat3x3) (dist_coeffs : List ℚ) (rot : quatf)
    (trans : vec3f) (use_extrinsic_guess : Bool) (h64 : ∀ b ∈ blobs, b.led_id < 64)
    (hN : ((blobs.map blob.led_id).filter (fun i => decide (0 ≤ i))).toFinset.card < 4) :
    estimate_initial_pose cv blobs leds camera_matrix dist_coeffs rot trans
        use_extrinsic_guess =
      { ret := false
        num_leds_out := ((blobs.map blob.led_id).filter (fun i => decide (0 ≤ i))).toFinset.card
        rot := some rot
        trans := trans } := by
  have hc := count_leds_eq_card blobs h64
  have hs := solver_points_eq leds blobs h64
  rw [if_pos (by omega)] at hs
  simp only [estimate_initial_pose, hs, hc]

/-- Witness of C1: five blobs with two distinct labels. -/
theorem estimate_initial_pose_too_few_leds_witness :
    estimate_initial_pose cv_solver_fails blobs_two_labels leds_on_axis mat_identity
        [0, 0, 0, 0] quat_identity ⟨1, 2, 3⟩ true =
      { ret := false
        num_leds_out :=
          ((blobs_two_labels.map blob.led_id).filter (fun i => decide (0 ≤ i))).toFinset.card
        rot := some quat_identity
        trans := ⟨1, 2, 3⟩ } :=
  estimate_initial_pose_too_few_leds cv_solver_fails blobs_two_labels leds_on_axis
    mat_identity [0, 0, 0, 0] quat_identity ⟨1, 2, 3⟩ true (by decide) (by decide)

/-- Counterexample to C2: with four distinct labels and a solver that reports failure,
`estimate_initial_pose` still returns true, and `*rot` no longer holds the caller's value. -/
theorem estimate_initial_pose_solver_failure_returns_true :
    4 ≤ ((blobs_four_labels.map blob.led_id).filter (fun i => decide (0 ≤ i))).toFinset.card ∧
    (solver_points leds_on_axis blobs_four_labels).map
        (fun p => (cv_solver_fails.solvePnPRansac p.1
          (cv_solver_fails.undistortPoints p.2 mat_identity [0, 0, 0, 0])
          (cv_solver_fails.Rodrigues (quatf_to_3x3 quat_identity)) ⟨1, 2, 3⟩ true).1) =
      some false ∧
    (estimate_initial_pose cv_solver_fails blobs_four_labels leds_on_axis mat_identity
        [0, 0, 0, 0] quat_identity ⟨1, 2, 3⟩ true).ret = true ∧
    (estimate_initial_pose cv_solver_fails blobs_four_labels leds_on_axis mat_identity
        [0, 0, 0, 0] quat_identity ⟨1, 2, 3⟩ true).rot ≠ some quat_identity := by
  have h64 : ∀ b ∈ blobs_four_labels, b.led_id < 64 := by decide
  have hs := solver_points_eq leds_on_axis blobs_four_labels h64
  have hc := count_leds_eq_card blobs_four_labels h64
  have h4 : 4 ≤
      ((blobs_four_labels.map blob.led_id).filter (fun i => decide (0 ≤ i))).toFinset.card := by
    decide
  rw [if_neg (by omega)] at hs
  refine ⟨h4, ?_, ?_, ?_⟩
  · rw [hs]; rfl
  · simp only [estimate_initial_pose, hs]
  · simp [estimate_initial_pose, hs, rvec_to_quat, cv_solver_fails]

/-- C2 as amended: with at least four distinct labels (led_ids below 64) the success flag
of the robust solver is not consulted; `estimate_initial_pose` returns true, stores the
quaternion derived from the `rvec` the solver left to `*rot` and the `tvec` it left to
`*trans`, whatever the flag. -/
theorem estimate_initial_pose_ignores_solver_flag (cv : cv_ops) (blobs : List blob)
    (leds : Nat → rift_led) (camera_matrix : mat3x3) (dist_coeffs : List ℚ) (rot : quatf)
    (trans : vec3f) (use_extrinsic_guess : Bool) (h64 : ∀ b ∈ blobs, b.led_id < 64)
    (hN : 4 ≤ ((blobs.map blob.led_id).filter (fun i => decide (0 ≤ i))).toFinset.card) :
    ∃ p3 p2, solver_points leds blobs = some (p3, p2) ∧
      estimate_initial_pose cv blobs leds camera_matrix dist_coeffs rot trans
          use_extrinsic_guess =
        { ret := true
          num_leds_out :=
            ((blobs.map blob.led_id).filter (fun i => decide (0 ≤ i))).toFinset.card
          rot := rvec_to_quat cv
            (cv.solvePnPRansac p3 (cv.undistortPoints p2 camera_matrix dist_coeffs)
              (cv.Rodrigues (quatf_to_3x3 rot)) trans use_extrinsic_guess).2.1
          trans :=
            (cv.solvePnPRansac p3 (cv.undistortPoints p2 camera_matrix dist_coeffs)
              (cv.Rodrigues (quatf_to_3x3 rot)) trans use_extrinsic_guess).2.2 } := by
  have hc := count_leds_eq_card blobs h64
  have hs := solver_points_eq leds blobs h64
  rw [if_neg (by omega)] at hs
  exact ⟨_, _, hs, by simp only [estimate_initial_pose, hs, hc]⟩

/-- Witness of the amended C2: six blobs with four distinct labels and a failing solver. -/
theorem estimate_initial_pose_ignores_solver_flag_witness :
    ∃ p3 p2, solver_points leds_on_axis blobs_four_labels = some (p3, p2) ∧
      estimate_initial_pose cv_solver_fails blobs_four_labels leds_on_axis mat_identity
          [0, 0, 0, 0] quat_identity ⟨1, 2, 3⟩ true =
        { ret := true
          num_leds_out :=
            ((blobs_four_labels.map blob.led_id).filter
              (fun i => decide (0 ≤ i))).toFinset.card
          rot := rvec_to_quat cv_solver_fails
            (cv_solver_fails.solvePnPRansac p3
              (cv_solver_fails.undistortPoints p2 mat_identity [0, 0, 0, 0])
              (cv_solver_fails.Rodrigues (quatf_to_3x3 quat_identity)) ⟨1, 2, 3⟩ true).2.1
          trans :=
            (cv_solver_fails.solvePnPRansac p3
              (cv_solver_fails.undistortPoints p2 mat_identity [0, 0, 0, 0])
              (cv_solver_fails.Rodrigues (quatf_to_3x3 quat_identity)) ⟨1, 2, 3⟩ true).2.2 } :=
  estimate_initial_pose_ignores_solver_flag cv_solver_fails blobs_four_labels leds_on_axis
    mat_identity [0, 0, 0, 0] quat_identity ⟨1, 2, 3⟩ true (by decide) (by decide)

/-- C3: when every non-negative led_id is below 64, the count stored to `*num_leds_out` is
the number of distinct non-negative led_ids of the blob list, which is at most the number
of distinct led_ids. -/
theorem num_leds_out_counts_distinct_ids (cv : cv_ops) (blobs : List blob)
    (leds : Nat → rift_led) (camera_matrix : mat3x3) (dist_coeffs : List ℚ) (rot : quatf)
    (trans : vec3f) (use_extrinsic_guess : Bool) (h64 : ∀ b ∈ blobs, b.led_id < 64) :
    (estimate_initial_pose cv blobs leds camera_matrix dist_coeffs rot trans
        use_extrinsic_guess).num_leds_out =
      ((blobs.map blob.led_id).filter (fun i => decide (0 ≤ i))).toFinset.card ∧
    (estimate_initial_pose cv blobs leds camera_matrix dist_coeffs rot trans
        use_extrinsic_guess).num_leds_out ≤ (blobs.map blob.led_id).toFinset.card := by
  have hc := count_leds_eq_card blobs h64
  have hout : (estimate_initial_pose cv blobs leds camera_matrix dist_coeffs rot trans
      use_extrinsic_guess).num_leds_out = count_leds blobs := by
    unfold estimate_initial_pose
    cases solver_points leds blobs <;> rfl
  rw [hout, hc]
  refine ⟨rfl, Finset.card_le_card ?_⟩
  intro i hi
  simp only [List.mem_toFinset, List.mem_filter] at hi ⊢
  exact hi.1

/-- Witness of C3: five blobs with two distinct labels. -/
theorem num_leds_out_counts_distinct_ids_witness :
    (estimate_initial_pose cv_solver_fails blobs_two_labels leds_on_axis mat_identity
        [0, 0, 0, 0] quat_identity ⟨1, 2, 3⟩ false).num_leds_out =
      ((blobs_two_labels.map blob.led_id).filter (fun i => decide (0 ≤ i))).toFinset.card ∧
    (estimate_initial_pose cv_solver_fails blobs_two_labels leds_on_axis mat_identity
        [0, 0, 0, 0] quat_identity ⟨1, 2, 3⟩ false).num_leds_out ≤
      (blobs_two_labels.map blob.led_id).toFinset.card :=
  num_leds_out_counts_distinct_ids cv_solver_fails blobs_two_labels leds_on_axis
    mat_identity [0, 0, 0, 0] quat_identity ⟨1, 2, 3⟩ false (by decide)

/-- C4: when the led_ids are below 64 and the first check passes, the second check does not
fire, both vectors handed to the solver have length N (the count of the first pass), and
their j-th entries are `leds[id].pos` and the centroid of the first blob in list order that
carries the j-th distinct non-negative led_id. -/
theorem solver_points_first_occurrences (leds : Nat → rift_led) (blobs : List blob)
    (h64 : ∀ b ∈ blobs, b.led_id < 64) (h4 : 4 ≤ count_leds blobs) :
    ∃ p3 p2, solver_points leds blobs = some (p3, p2) ∧
      p3.length = count_leds blobs ∧ p2.length = count_leds blobs ∧
      (distinct_led_ids blobs).length = count_leds blobs ∧
      ∀ j, j < count_leds blobs →
        ∃ b, (distinct_led_ids blobs)[j]? = some b.led_id ∧
          blobs.find? (fun c => decide (c.led_id = b.led_id)) = some b ∧
          p3[j]? = some ⟨(leds b.led_id.toNat).pos.x, (leds b.led_id.toNat).pos.y,
            (leds b.led_id.toNat).pos.z⟩ ∧
          p2[j]? = some ⟨b.x, b.y⟩ := by
  have hs := solver_points_eq leds blobs h64
  rw [if_neg (by omega)] at hs
  have hcount : count_leds blobs = (first_labelled_from [] blobs).length := by
    rw [count_leds, count_leds_loop_eq blobs 0 0 [] h64 tracks_zero]
    simp
  refine ⟨_, _, hs, by simp [hcount], by simp [hcount], by simp [hcount, distinct_led_ids], ?_⟩
  intro j hj
  rw [hcount] at hj
  refine ⟨(first_labelled_from [] blobs)[j], ?_, ?_, ?_, ?_⟩
  · simp [distinct_led_ids, List.getElem?_map, List.getElem?_eq_getElem hj]
  · exact find_first_labelled blobs [] _ (List.getElem_mem _)
  · simp [List.getElem?_map, List.getElem?_eq_getElem hj, point3d_of]
  · simp [List.getElem?_map, List.getElem?_eq_getElem hj, point2d_of]

/-- Witness of C4: six blobs with four distinct labels. -/
theorem solver_points_first_occurrences_witness :
    ∃ p3 p2, solver_points leds_on_axis blobs_four_labels = some (p3, p2) ∧
      p3.length = count_leds blobs_four_labels ∧ p2.length = count_leds blobs_four_labels ∧
      (distinct_led_ids blobs_four_labels).length = count_leds blobs_four_labels ∧
      ∀ j, j < count_leds blobs_four_labels →
        ∃ b, (distinct_led_ids blobs_four_labels)[j]? = some b.led_id ∧
          blobs_four_labels.find? (fun c => decide (c.led_id = b.led_id)) = some b ∧
          p3[j]? = some ⟨(leds_on_axis b.led_id.toNat).pos.x,
            (leds_on_axis b.led_id.toNat).pos.y, (leds_on_axis b.led_id.toNat).pos.z⟩ ∧
          p2[j]? = some ⟨b.x, b.y⟩ :=
  solver_points_first_occurrences leds_on_axis blobs_four_labels (by decide) (by decide)

/-! ## Lemmas on the IMU ring -/

theorem send_imu_debug_num (dev : rift_tracked_device) :
    (rift_tracked_device_send_imu_debug dev).num_pending_imu_observations = 0 := by
  unfold rift_tracked_device_send_imu_debug
  by_cases h : dev.num_pending_imu_observations = 0
  · simp [h]
  · simp [h]

theorem send_imu_debug_ring (dev : rift_tracked_device) :
    (rift_tracked_device_send_imu_debug dev).pending_imu_observations =
      dev.pending_imu_observations := by
  unfold rift_tracked_device_send_imu_debug
  by_cases h : dev.num_pending_imu_observations = 0
  · simp [h]
  · simp [h]

theorem send_imu_debug_fusion (dev : rift_tracked_device) :
    (rift_tracked_device_send_imu_debug dev).fusion = dev.fusion := by
  unfold rift_tracked_device_send_imu_debug
  by_cases h : dev.num_pending_imu_observations = 0
  · simp [h]
  · simp [h]

/-- The count after `rift_tracked_device_imu_update`. -/
theorem imu_update_num (F : fusion_ops) (cap : Nat) (dev : rift_tracked_device)
    (local_ts device_ts : Nat) (dt : ℚ) (ang_vel accel mag_field : vec3f) :
    (rift_tracked_device_imu_update F cap dev local_ts device_ts dt ang_vel accel
        mag_field).num_pending_imu_observations =
      if dev.num_pending_imu_observations + 1 = cap then 0
      else dev.num_pending_imu_observations + 1 := by
  unfold rift_tracked_device_imu_update
  by_cases h : dev.num_pending_imu_observations + 1 = cap
  · simp only [h, if_true, send_imu_debug_num]
  · simp only [h, if_false]

/-- The ring after `rift_tracked_device_imu_update`. -/
theorem imu_update_ring (F : fusion_ops) (cap : Nat) (dev : rift_tracked_device)
    (local_ts device_ts : Nat) (dt : ℚ) (ang_vel accel mag_field : vec3f) :
    (rift_tracked_device_imu_update F cap dev local_ts device_ts dt ang_vel accel
        mag_field).pending_imu_observations =
      dev.pending_imu_observations.set dev.num_pending_imu_observations
        { local_ts := local_ts, device_ts := device_ts, dt := dt, ang_vel := ang_vel,
          accel := accel, mag := mag_field,
          simple_orient := (F.ofusion_update dev.fusion dt ang_vel accel mag_field).orient } := by
  unfold rift_tracked_device_imu_update
  by_cases h : dev.num_pending_imu_observations + 1 = cap
  · simp only [h, if_true, send_imu_debug_ring]
  · simp only [h, if_false]

/-- The state of one ring that every operation preserves. -/
theorem ring_ok_step (F : fusion_ops) (cap : Nat) (hcap : 0 < cap) (i : Nat)
    (ctx : rift_tracker_ctx) (op : tracker_op)
    (h : ∃ d, ctx.devices[i]? = some d ∧ d.num_pending_imu_observations < cap ∧
      d.pending_imu_observations.length = cap) :
    ∃ d, (tracker_step F cap ctx op).devices[i]? = some d ∧
      d.num_pending_imu_observations < cap ∧ d.pending_imu_observations.length = cap := by
  obtain ⟨d, hd, hn, hl⟩ := h
  cases op with
  | imu_update k local_ts device_ts dt ang_vel accel mag_field =>
    simp only [tracker_step, List.getElem?_modify, hd, Option.map_eq_map, Option.map_some']
    refine ⟨_, rfl, ?_, ?_⟩
    · by_cases hk : k = i
      · simp only [hk, if_true, imu_update_num]
        by_cases hc : d.num_pending_imu_observations + 1 = cap
        · simp [hc, hcap]
        · simp only [hc, if_false]; omega
      · simpa [hk] using hn
    · by_cases hk : k = i
      · simp [hk, imu_update_ring, hl]
      · simpa [hk] using hl
  | model_pose_update k local_ts exposure_info pose =>
    simp only [tracker_step, List.getElem?_modify, hd, Option.map_eq_map, Option.map_some']
    refine ⟨_, rfl, ?_, ?_⟩
    · by_cases hk : k = i
      · simp [hk, rift_tracked_device_model_pose_update, send_imu_debug_num, hcap]
      · simpa [hk] using hn
    · by_cases hk : k = i
      · simp [hk, rift_tracked_device_model_pose_update, send_imu_debug_ring, hl]
      · simpa [hk] using hl
  | update_exposure now exposure_count exposure_hmd_ts led_pattern_phase =>
    simp only [tracker_step, rift_tracker_update_exposure]
    split_ifs
    · refine ⟨rift_tracked_device_send_imu_debug d, by simp [hd], ?_, ?_⟩
      · simp [send_imu_debug_num, hcap]
      · simp [send_imu_debug_ring, hl]
    · exact ⟨d, by simpa using hd, hn, hl⟩
    · refine ⟨rift_tracked_device_send_imu_debug d, by simp [hd], ?_, ?_⟩
      · simp [send_imu_debug_num, hcap]
      · simp [send_imu_debug_ring, hl]
    · exact ⟨d, hd, hn, hl⟩
  | get_view_pose k => exact ⟨d, hd, hn, hl⟩
  | get_model_pose k ts g => exact ⟨d, hd, hn, hl⟩

theorem ring_ok_run (F : fusion_ops) (cap : Nat) (hcap : 0 < cap) (i : Nat)
    (ops : List tracker_op) :
    ∀ ctx : rift_tracker_ctx,
      (∃ d, ctx.devices[i]? = some d ∧ d.num_pending_imu_observations < cap ∧
        d.pending_imu_observations.length = cap) →
      ∃ d, (tracker_run F cap ctx ops).devices[i]? = some d ∧
        d.num_pending_imu_observations < cap ∧ d.pending_imu_observations.length = cap := by
  induction ops with
  | nil => intro ctx h; simpa [tracker_run] using h
  | cons op ops ih =>
    intro ctx h
    have := ih (tracker_step F cap ctx op) (ring_ok_step F cap hcap i ctx op h)
    simpa [tracker_run] using this

/-! ## The claims on the exposure record -/

/-- Counterexample to C5: on a fresh tracker (stored count 0, no exposure seen), an update
with count 0, hmd_ts 5 and phase 1 is followed by a read that returns false with hmd_ts 0. -/
theorem fresh_tracker_update_with_stored_count :
    rift_tracker_get_exposure_info (rift_tracker_update_exposure tracker_fresh 100 0 5 1) =
      (false, { local_ts := 0, hmd_ts := 0, count := 0, led_pattern_phase := 1 }) := by
  decide

/-- C5 as amended: when the stored count differs from `c`, after
`rift_tracker_update_exposure (ctx, c, t, p)` a call to `rift_tracker_get_exposure_info`
returns true with a snapshot whose count is `c`, hmd_ts is `t` and led_pattern_phase is
`p` (and whose local_ts is the time of the update). -/
theorem update_exposure_then_get (ctx : rift_tracker_ctx) (now c t p : Nat)
    (hc : ctx.exposure_info.count ≠ c) :
    rift_tracker_get_exposure_info (rift_tracker_update_exposure ctx now c t p) =
      (true, { local_ts := now, hmd_ts := t, count := c, led_pattern_phase := p }) := by
  unfold rift_tracker_get_exposure_info rift_tracker_update_exposure
  by_cases hp : ctx.exposure_info.led_pattern_phase = p
  · simp [hp, hc]
  · simp [hp, hc]

/-- Witness of the amended C5: a fresh tracker and a first exposure with count 1. -/
theorem update_exposure_then_get_witness :
    rift_tracker_get_exposure_info (rift_tracker_update_exposure tracker_fresh 100 1 5 1) =
      (true, { local_ts := 100, hmd_ts := 5, count := 1, led_pattern_phase := 1 }) :=
  update_exposure_then_get tracker_fresh 100 1 5 1 (by decide)

/-- C6: an update whose count equals the stored count leaves count, hmd_ts, local_ts,
have_exposure_info and every device (so every pending IMU observation count) unchanged,
and the stored led_pattern_phase is the supplied phase afterwards. -/
theorem update_exposure_same_count (ctx : rift_tracker_ctx) (now c t p : Nat)
    (hc : ctx.exposure_info.count = c) :
    (rift_tracker_update_exposure ctx now c t p).exposure_info.count =
        ctx.exposure_info.count ∧
    (rift_tracker_update_exposure ctx now c t p).exposure_info.hmd_ts =
        ctx.exposure_info.hmd_ts ∧
    (rift_tracker_update_exposure ctx now c t p).exposure_info.local_ts =
        ctx.exposure_info.local_ts ∧
    (rift_tracker_update_exposure ctx now c t p).have_exposure_info =
        ctx.have_exposure_info ∧
    (rift_tracker_update_exposure ctx now c t p).devices.map
        rift_tracked_device.num_pending_imu_observations =
      ctx.devices.map rift_tracked_device.num_pending_imu_observations ∧
    (rift_tracker_update_exposure ctx now c t p).devices = ctx.devices ∧
    (rift_tracker_update_exposure ctx now c t p).exposure_info.led_pattern_phase = p := by
  unfold rift_tracker_update_exposure
  by_cases hp : ctx.exposure_info.led_pattern_phase = p
  · simp [hp, hc]
  · simp [hp, hc]

/-- Witness of C6: three pending observations per device, stored count 0, new phase 2. -/
theorem update_exposure_same_count_witness :
    (rift_tracker_update_exposure tracker_three_pending 100 0 5 2).exposure_info.count =
        tracker_three_pending.exposure_info.count ∧
    (rift_tracker_update_exposure tracker_three_pending 100 0 5 2).exposure_info.hmd_ts =
        tracker_three_pending.exposure_info.hmd_ts ∧
    (rift_tracker_update_exposure tracker_three_pending 100 0 5 2).exposure_info.local_ts =
        tracker_three_pending.exposure_info.local_ts ∧
    (rift_tracker_update_exposure tracker_three_pending 100 0 5 2).have_exposure_info =
        tracker_three_pending.have_exposure_info ∧
    (rift_tracker_update_exposure tracker_three_pending 100 0 5 2).devices.map
        rift_tracked_device.num_pending_imu_observations =
      tracker_three_pending.devices.map rift_tracked_device.num_pending_imu_observations ∧
    (rift_tracker_update_exposure tracker_three_pending 100 0 5 2).devices =
      tracker_three_pending.devices ∧
    (rift_tracker_update_exposure tracker_three_pending 100 0 5 2).exposure_info.led_pattern_phase
      = 2 :=
  update_exposure_same_count tracker_three_pending 100 0 5 2 (by decide)

/-- C7: an update whose count differs from the stored count leaves every slot of the
device table (the table keeps its size) with no pending IMU observation, whatever the
state of its debug stream. -/
theorem update_exposure_flushes_all (ctx : rift_tracker_ctx) (now c t p : Nat)
    (hc : ctx.exposure_info.count ≠ c) :
    (rift_tracker_update_exposure ctx now c t p).devices.length = ctx.devices.length ∧
    ∀ dev ∈ (rift_tracker_update_exposure ctx now c t p).devices,
      dev.num_pending_imu_observations = 0 := by
  unfold rift_tracker_update_exposure
  by_cases hp : ctx.exposure_info.led_pattern_phase = p
  · simp only [hp, ne_eq, not_true_eq_false, if_false, hc, not_false_eq_true, if_true,
      List.length_map, List.mem_map, true_and]
    rintro dev ⟨d, _, rfl⟩
    exact send_imu_debug_num d
  · simp only [hp, ne_eq, not_false_eq_true, if_true, hc, List.length_map, List.mem_map,
      true_and]
    rintro dev ⟨d, _, rfl⟩
    exact send_imu_debug_num d

/-- Witness of C7: two devices with three pending observations each, new count 1. -/
theorem update_exposure_flushes_all_witness :
    (rift_tracker_update_exposure tracker_three_pending 100 1 5 0).devices.length =
      tracker_three_pending.devices.length ∧
    ∀ dev ∈ (rift_tracker_update_exposure tracker_three_pending 100 1 5 0).devices,
      dev.num_pending_imu_observations = 0 :=
  update_exposure_flushes_all tracker_three_pending 100 1 5 0 (by decide)

/-! ## The claim on the IMU ring -/

/-- C8: for a positive capacity, a device slot that starts with no pending observation and
a ring of `cap` slots has, after any sequence of imu_update, model_pose_update,
update_exposure and pose getter calls, a count strictly below the capacity; hence the
slot the next imu_update writes lies inside the ring (the observation is found there
afterwards), and an imu_update that brings the count to the capacity resets it to zero. -/
theorem ring_bound_invariant (F : fusion_ops) (cap : Nat) (ctx : rift_tracker_ctx) (i : Nat)
    (d0 : rift_tracked_device) (ops : List tracker_op) (hcap : 0 < cap)
    (hd : ctx.devices[i]? = some d0) (h0 : d0.num_pending_imu_observations = 0)
    (hring : d0.pending_imu_observations.length = cap) :
    ∃ d, (tracker_run F cap ctx ops).devices[i]? = some d ∧
      d.num_pending_imu_observations < cap ∧
      d.pending_imu_observations.length = cap ∧
      ∀ (local_ts device_ts : Nat) (dt : ℚ) (ang_vel accel mag_field : vec3f),
        (rift_tracked_device_imu_update F cap d local_ts device_ts dt ang_vel accel
            mag_field).pending_imu_observations[d.num_pending_imu_observations]? =
          some { local_ts := local_ts, device_ts := device_ts, dt := dt, ang_vel := ang_vel,
                 accel := accel, mag := mag_field,
                 simple_orient :=
                   (F.ofusion_update d.fusion dt ang_vel accel mag_field).orient } ∧
        (rift_tracked_device_imu_update F cap d local_ts device_ts dt ang_vel accel
            mag_field).num_pending_imu_observations =
          if d.num_pending_imu_observations + 1 = cap then 0
          else d.num_pending_imu_observations + 1 := by
  obtain ⟨d, hd', hn, hl⟩ :=
    ring_ok_run F cap hcap i ops ctx ⟨d0, hd, by omega, hring⟩
  refine ⟨d, hd', hn, hl, ?_⟩
  intro local_ts device_ts dt ang_vel accel mag_field
  refine ⟨?_, imu_update_num F cap d local_ts device_ts dt ang_vel accel mag_field⟩
  rw [imu_update_ring]
  have hlt : d.num_pending_imu_observations < d.pending_imu_observations.length := by omega
  simp [List.getElem?_set_self, hlt]

/-- Witness of C8: the HMD slot of a fresh tracker with rings of four slots, after three
samples for each registered device. -/
theorem ring_bound_invariant_witness :
    ∃ d, (tracker_run fusion_store 4 tracker_fresh ops_three_samples_each).devices[0]? =
        some d ∧
      d.num_pending_imu_observations < 4 ∧
      d.pending_imu_observations.length = 4 ∧
      ∀ (local_ts device_ts : Nat) (dt : ℚ) (ang_vel accel mag_field : vec3f),
        (rift_tracked_device_imu_update fusion_store 4 d local_ts device_ts dt ang_vel accel
            mag_field).pending_imu_observations[d.num_pending_imu_observations]? =
          some { local_ts := local_ts, device_ts := device_ts, dt := dt, ang_vel := ang_vel,
                 accel := accel, mag := mag_field,
                 simple_orient :=
                   (fusion_store.ofusion_update d.fusion dt ang_vel accel mag_field).orient } ∧
        (rift_tracked_device_imu_update fusion_store 4 d local_ts device_ts dt ang_vel accel
            mag_field).num_pending_imu_observations =
          if d.num_pending_imu_observations + 1 = 4 then 0
          else d.num_pending_imu_observations + 1 :=
  ring_bound_invariant fusion_store 4 tracker_fresh 0 (device_fresh 0 4)
    ops_three_samples_each (by decide) rfl rfl rfl

/-! ## The claims on the pose paths -/

/-- C9: the fusion state after `rift_tracked_device_model_pose_update` is
`ofusion_tracker_update` applied to the old fusion state, the time
`exposure_info->local_ts / 1e9` and the pose `oposef_apply_inverse (P, fusion_to_model)`,
mirrored in XZ when `id == 0` (the mirror negates position y and quaternion x and z and
keeps w); for `id = 0`, identity `fusion_to_model` and `P = ((1,2,3), (0,1,0,0))` the handed
position has y = -2 and the handed quaternion has x and z negated. -/
theorem model_pose_update_handed_pose (F : fusion_ops) (dev : rift_tracked_device)
    (local_ts : Nat) (exposure_info : rift_tracker_exposure_info) (pose : posef) :
    (rift_tracked_device_model_pose_update F dev local_ts exposure_info pose).1.fusion =
        F.ofusion_tracker_update dev.fusion (model_pose_handed dev exposure_info pose).1
          (model_pose_handed dev exposure_info pose).2.pos
          (model_pose_handed dev exposure_info pose).2.orient ∧
    (model_pose_handed dev exposure_info pose).1 =
        (exposure_info.local_ts : ℚ) / 1000000000 ∧
    (model_pose_handed dev exposure_info pose).2 =
        (if dev.id = 0 then oposef_mirror_XZ (oposef_apply_inverse pose dev.fusion_to_model)
         else oposef_apply_inverse pose dev.fusion_to_model) ∧
    oposef_mirror_XZ (oposef_apply_inverse pose dev.fusion_to_model) =
        { pos := ⟨(oposef_apply_inverse pose dev.fusion_to_model).pos.x,
                  -(oposef_apply_inverse pose dev.fusion_to_model).pos.y,
                  (oposef_apply_inverse pose dev.fusion_to_model).pos.z⟩
          orient := ⟨-(oposef_apply_inverse pose dev.fusion_to_model).orient.x,
                     (oposef_apply_inverse pose dev.fusion_to_model).orient.y,
                     -(oposef_apply_inverse pose dev.fusion_to_model).orient.z,
                     (oposef_apply_inverse pose dev.fusion_to_model).orient.w⟩ } ∧
    (model_pose_handed (device_fresh 0 4) exposure_info pose_half_turn_y).2 =
        { pos := ⟨1, -2, 3⟩
          orient := ⟨-pose_half_turn_y.orient.x, 1, -pose_half_turn_y.orient.z, 0⟩ } := by
  refine ⟨?_, rfl, rfl, rfl, ?_⟩
  · simp [rift_tracked_device_model_pose_update, send_imu_debug_fusion]
  · simp [model_pose_handed, device_fresh, pose_identity, quat_identity, pose_half_turn_y,
      oposef_apply_inverse, oposef_mirror_XZ, oquatf_get_rotated, oquatf_mult, oquatf_inverse]

/-- Counterexample to C10: the last gravity update is exactly 0.5 s old (inside the
inclusive bound of the claim), yet `M_PI` is written and not `grav_error_angle`. -/
theorem get_model_pose_half_second_is_stale :
    |(1 / 2 : ℚ) - device_gravity_at_zero.fusion.last_gravity_vector_time| ≤ 1 / 2 ∧
    (rift_tracked_device_get_model_pose device_gravity_at_zero (1 / 2) (some 0)).2 =
      some M_PI ∧
    M_PI ≠ device_gravity_at_zero.fusion.grav_error_angle := by
  refine ⟨?_, ?_, ?_⟩
  · have h : device_gravity_at_zero.fusion.last_gravity_vector_time = 0 := rfl
    rw [h, sub_zero, abs_of_pos (by norm_num)]
  · norm_num [rift_tracked_device_get_model_pose, device_gravity_at_zero, device_fresh]
  · norm_num [M_PI, device_gravity_at_zero, device_fresh]

/-- C10 as amended: with a non-null `gravity_error_rad`,
`rift_tracked_device_get_model_pose` writes `fusion.grav_error_angle` when
`|ts - fusion.last_gravity_vector_time| < 0.5` (both bounds exclusive) and `M_PI`
otherwise; in particular it writes `M_PI` when the last gravity update is 1 s old. -/
theorem get_model_pose_gravity_error (dev : rift_tracked_device) (ts g0 : ℚ) :
    (rift_tracked_device_get_model_pose dev ts (some g0)).2 =
        some (if |ts - dev.fusion.last_gravity_vector_time| < 1 / 2 then
          dev.fusion.grav_error_angle else M_PI) ∧
    (rift_tracked_device_get_model_pose dev (dev.fusion.last_gravity_vector_time + 1)
        (some g0)).2 = some M_PI := by
  constructor
  · simp only [rift_tracked_device_get_model_pose]
    have e : (ts - dev.fusion.last_gravity_vector_time > -0.5 ∧
        ts - dev.fusion.last_gravity_vector_time < 0.5) ↔
        |ts - dev.fusion.last_gravity_vector_time| < 1 / 2 := by
      rw [abs_lt]
      norm_num
    by_cases h : |ts - dev.fusion.last_gravity_vector_time| < 1 / 2
    · rw [if_pos (e.2 h), if_pos h]
    · rw [if_neg (fun hc => h (e.1 hc)), if_neg h]
  · simp only [rift_tracked_device_get_model_pose]
    rw [if_neg]
    norm_num

/-! ## The claim on registration -/

/-- Counterexample to C11: on a full table of three slots `rift_tracker_add_device` does
not return at all (the assertion fails), so no error value reaches the caller. -/
theorem add_device_on_full_table_aborts :
    tracker_full.n_devices = 3 ∧
    rift_tracker_add_device 3 (fun f => f) (fun _ => none) tracker_full 7 pose_identity =
      add_device_result.aborted tracker_full := by
  decide

/-- C11 as amended: when the table already holds `RIFT_MAX_TRACKED_DEVICES` devices,
`rift_tracker_add_device` returns nothing to its caller: the assertion
`n_devices < RIFT_MAX_TRACKED_DEVICES` fails and the program is terminated, with
`n_devices` and every device slot still unchanged. -/
theorem add_device_full_table (RIFT_MAX_TRACKED_DEVICES : Nat) (ofusion_init : fusion → fusion)
    (ohmd_pw_debug_stream_new : Int → Option debug_stream) (ctx : rift_tracker_ctx)
    (device_id : Int) (imu_pose : posef)
    (hfull : ctx.n_devices = RIFT_MAX_TRACKED_DEVICES) :
    rift_tracker_add_device RIFT_MAX_TRACKED_DEVICES ofusion_init ohmd_pw_debug_stream_new
        ctx device_id imu_pose = add_device_result.aborted ctx := by
  simp [rift_tracker_add_device, hfull]

/-- Witness of the amended C11: a full table of three slots. -/
theorem add_device_full_table_witness :
    rift_tracker_add_device 3 (fun f => f) (fun _ => some ⟨false, []⟩) tracker_full 7
        pose_identity = add_device_result.aborted tracker_full :=
  add_device_full_table 3 (fun f => f) (fun _ => some ⟨false, []⟩) tracker_full 7
    pose_identity rfl

/-! ## The claim on the gyro conversion -/

/-- A value in the range of `int` is not changed by the wrap-around. -/
theorem int32_wrap_of_range (z : Int) (h1 : -2147483648 ≤ z) (h2 : z < 2147483648) :
    int32_wrap z = z := by
  unfold int32_wrap
  omega

/-- With 16-bit samples the `int` sum of eight sub-samples does not wrap. -/
theorem gyro_sum_exact (smp : Nat → Nat → Int)
    (h16 : ∀ a b, -32768 ≤ smp a b ∧ smp a b ≤ 32767) (axis i : Nat) :
    gyro_sum smp axis i =
      smp axis (8 * i + 0) + smp axis (8 * i + 1) + smp axis (8 * i + 2) +
        smp axis (8 * i + 3) + smp axis (8 * i + 4) + smp axis (8 * i + 5) +
        smp axis (8 * i + 6) + smp axis (8 * i + 7) := by
  have h0 := h16 axis (8 * i + 0)
  have h1 := h16 axis (8 * i + 1)
  have h2 := h16 axis (8 * i + 2)
  have h3 := h16 axis (8 * i + 3)
  have h4 := h16 axis (8 * i + 4)
  have h5 := h16 axis (8 * i + 5)
  have h6 := h16 axis (8 * i + 6)
  have h7 := h16 axis (8 * i + 7)
  unfold gyro_sum add32
  rw [int32_wrap_of_range (smp axis (8 * i + 0) + smp axis (8 * i + 1)) (by omega) (by omega)]
  rw [int32_wrap_of_range (_ + smp axis (8 * i + 2)) (by omega) (by omega)]
  rw [int32_wrap_of_range (_ + smp axis (8 * i + 3)) (by omega) (by omega)]
  rw [int32_wrap_of_range (_ + smp axis (8 * i + 4)) (by omega) (by omega)]
  rw [int32_wrap_of_range (_ + smp axis (8 * i + 5)) (by omega) (by omega)]
  rw [int32_wrap_of_range (_ + smp axis (8 * i + 6)) (by omega) (by omega)]
  rw [int32_wrap_of_range (_ + smp axis (8 * i + 7)) (by omega) (by omega)]

/-- Counterexample to C12: with every sub-sample equal to 8 the mean is 8, the claim gives
x = -0.001, and the code gives x = -0.008. -/
theorem gyro_all_eight_is_not_scaled_mean :
    gyro_mean gyro_all_eight 1 0 = 8 ∧
    (vec3f_from_hololens_gyro gyro_all_eight 0).x = -(8 / 1000) ∧
    (vec3f_from_hololens_gyro gyro_all_eight 0).x ≠
      -(0.000125 : ℚ) * gyro_mean gyro_all_eight 1 0 := by
  have hs : gyro_sum gyro_all_eight 1 0 = 64 := by decide
  have hm : gyro_mean gyro_all_eight 1 0 = 8 := by
    norm_num [gyro_mean, gyro_all_eight]
  refine ⟨hm, ?_, ?_⟩
  · simp only [vec3f_from_hololens_gyro, hs]
    norm_num
  · simp only [vec3f_from_hololens_gyro, hs, hm]
    norm_num

/-- C12 as amended: for 16-bit samples `vec3f_from_hololens_gyro` produces x, y, z equal to
minus 0.001 times the arithmetic mean (minus 0.000125 times the sum) of the eight
sub-samples `smp[1][8i..8i+7]`, `smp[0][8i..8i+7]` and `smp[2][8i..8i+7]` respectively, and
the `int` sum of the eight values does not overflow. -/
theorem gyro_is_scaled_mean (smp : Nat → Nat → Int) (i : Nat)
    (h16 : ∀ a b, -32768 ≤ smp a b ∧ smp a b ≤ 32767) :
    (vec3f_from_hololens_gyro smp i).x = -(0.001 : ℚ) * gyro_mean smp 1 i ∧
    (vec3f_from_hololens_gyro smp i).y = -(0.001 : ℚ) * gyro_mean smp 0 i ∧
    (vec3f_from_hololens_gyro smp i).z = -(0.001 : ℚ) * gyro_mean smp 2 i ∧
    (vec3f_from_hololens_gyro smp i).x = -(0.000125 : ℚ) * (8 * gyro_mean smp 1 i) ∧
    (vec3f_from_hololens_gyro smp i).y = -(0.000125 : ℚ) * (8 * gyro_mean smp 0 i) ∧
    (vec3f_from_hololens_gyro smp i).z = -(0.000125 : ℚ) * (8 * gyro_mean smp 2 i) ∧
    (gyro_sum smp 1 i : ℚ) = 8 * gyro_mean smp 1 i ∧
    (gyro_sum smp 0 i : ℚ) = 8 * gyro_mean smp 0 i ∧
    (gyro_sum smp 2 i : ℚ) = 8 * gyro_mean smp 2 i := by
  have s1 : (gyro_sum smp 1 i : ℚ) = 8 * gyro_mean smp 1 i := by
    rw [gyro_sum_exact smp h16, gyro_mean]; ring
  have s0 : (gyro_sum smp 0 i : ℚ) = 8 * gyro_mean smp 0 i := by
    rw [gyro_sum_exact smp h16, gyro_mean]; ring
  have s2 : (gyro_sum smp 2 i : ℚ) = 8 * gyro_mean smp 2 i := by
    rw [gyro_sum_exact smp h16, gyro_mean]; ring
  simp only [vec3f_from_hololens_gyro, s0, s1, s2]
  refine ⟨?_, ?_, ?_, ?_, ?_, ?_, trivial, trivial, trivial⟩ <;> norm_num <;> ring

/-- Witness of the amended C12: every sub-sample equal to 8. -/
theorem gyro_is_scaled_mean_witness :
    (vec3f_from_hololens_gyro gyro_all_eight 0).x = -(0.001 : ℚ) * gyro_mean gyro_all_eight 1 0 ∧
    (vec3f_from_hololens_gyro gyro_all_eight 0).y = -(0.001 : ℚ) * gyro_mean gyro_all_eight 0 0 ∧
    (vec3f_from_hololens_gyro gyro_all_eight 0).z = -(0.001 : ℚ) * gyro_mean gyro_all_eight 2 0 ∧
    (vec3f_from_hololens_gyro gyro_all_eight 0).x =
      -(0.000125 : ℚ) * (8 * gyro_mean gyro_all_eight 1 0) ∧
    (vec3f_from_hololens_gyro gyro_all_eight 0).y =
      -(0.000125 : ℚ) * (8 * gyro_mean gyro_all_eight 0 0) ∧
    (vec3f_from_hololens_gyro gyro_all_eight 0).z =
      -(0.000125 : ℚ) * (8 * gyro_mean gyro_all_eight 2 0) ∧
    (gyro_sum gyro_all_eight 1 0 : ℚ) = 8 * gyro_mean gyro_all_eight 1 0 ∧
    (gyro_sum gyro_all_eight 0 0 : ℚ) = 8 * gyro_mean gyro_all_eight 0 0 ∧
    (gyro_sum gyro_all_eight 2 0 : ℚ) = 8 * gyro_mean gyro_all_eight 2 0 :=
  gyro_is_scaled_mean gyro_all_eight 0 (fun _ _ => by simp [gyro_all_eight])

/-! ## The claim on `quatf_to_3x3` -/

/-- For a unit quaternion the diagonal of `quatf_to_3x3` has its homogeneous form. -/
theorem quatf_to_3x3_unit (q : quatf) (h : q.x * q.x + q.y * q.y + q.z * q.z + q.w * q.w = 1) :
    quatf_to_3x3 q =
      { m00 := q.w * q.w + q.x * q.x - q.y * q.y - q.z * q.z
        m01 := 2 * q.x * q.y - 2 * q.w * q.z
        m02 := 2 * q.x * q.z + 2 * q.w * q.y
        m10 := 2 * q.x * q.y + 2 * q.w * q.z
        m11 := q.w * q.w - q.x * q.x + q.y * q.y - q.z * q.z
        m12 := 2 * q.y * q.z - 2 * q.w * q.x
        m20 := 2 * q.x * q.z - 2 * q.w * q.y
        m21 := 2 * q.y * q.z + 2 * q.w * q.x
        m22 := q.w * q.w - q.x * q.x - q.y * q.y + q.z * q.z } := by
  simp only [quatf_to_3x3, mat3x3.mk.injEq, true_and, and_true]
  refine ⟨?_, ?_, ?_⟩ <;> linear_combination (-1 : ℚ) * h

/-- C13: for a quaternion with `x² + y² + z² + w² = 1`, the matrix `M` written by
`quatf_to_3x3` satisfies `M · Mᵀ = I` and `det M = 1`, and `q` and `-q` give the same
matrix. -/
theorem quatf_to_3x3_rotation (q : quatf)
    (h : q.x * q.x + q.y * q.y + q.z * q.z + q.w * q.w = 1) :
    (quatf_to_3x3 q).mul (quatf_to_3x3 q).transpose = mat_identity ∧
    (quatf_to_3x3 q).det = 1 ∧
    quatf_to_3x3 ⟨-q.x, -q.y, -q.z, -q.w⟩ = quatf_to_3x3 q := by
  have hn2 : (q.x * q.x + q.y * q.y + q.z * q.z + q.w * q.w) ^ 2 = 1 := by rw [h]; norm_num
  have hn3 : (q.x * q.x + q.y * q.y + q.z * q.z + q.w * q.w) ^ 3 = 1 := by rw [h]; norm_num
  refine ⟨?_, ?_, ?_⟩
  · rw [quatf_to_3x3_unit q h]
    simp only [mat3x3.mul, mat3x3.transpose, mat_identity, mat3x3.mk.injEq]
    refine ⟨?_, ?_, ?_, ?_, ?_, ?_, ?_, ?_, ?_⟩
    · linear_combination hn2
    · ring
    · ring
    · ring
    · linear_combination hn2
    · ring
    · ring
    · ring
    · linear_combination hn2
  · rw [quatf_to_3x3_unit q h]
    simp only [mat3x3.det]
    linear_combination hn3
  · simp only [quatf_to_3x3, mat3x3.mk.injEq]
    refine ⟨?_, ?_, ?_, ?_, ?_, ?_, ?_, ?_, ?_⟩ <;> ring

/-- Witness of C13: the unit quaternion `(3/5, 0, 4/5, 0)`. -/
theorem quatf_to_3x3_rotation_witness :
    (quatf_to_3x3 ⟨3 / 5, 0, 4 / 5, 0⟩).mul (quatf_to_3x3 ⟨3 / 5, 0, 4 / 5, 0⟩).transpose =
      mat_identity ∧
    (quatf_to_3x3 ⟨3 / 5, 0, 4 / 5, 0⟩).det = 1 ∧
    quatf_to_3x3 ⟨-(3 / 5), -0, -(4 / 5), -0⟩ = quatf_to_3x3 ⟨3 / 5, 0, 4 / 5, 0⟩ :=
  quatf_to_3x3_rotation ⟨3 / 5, 0, 4 / 5, 0⟩ (by norm_num)

/-! ## The claim on the rotation-vector conversion -/

/-- C14, evaluated at the failing input: four labelled blobs and a solver that succeeds
with the zero rotation vector.  The angle is 0, `1.0f / angle` is not guarded, and the
quaternion stored to `*rot` is not made of numbers (`none`), while true is returned. -/
theorem estimate_initial_pose_zero_rvec :
    estimate_initial_pose cv_solver_zero_rvec blobs_four_labels leds_on_axis mat_identity
        [0, 0, 0, 0] quat_identity ⟨1, 2, 3⟩ true =
      { ret := true, num_leds_out := 4, rot := none, trans := ⟨1, 2, 3⟩ } := by
  have h64 : ∀ b ∈ blobs_four_labels, b.led_id < 64 := by decide
  have hs := solver_points_eq leds_on_axis blobs_four_labels h64
  have hc : count_leds blobs_four_labels = 4 := by decide
  rw [if_neg (by omega)] at hs
  simp [estimate_initial_pose, hs, hc, rvec_to_quat, cv_solver_zero_rvec]

/-! ## The claim on lock order -/

/-- The locks held before the events of a concatenated trace. -/
theorem held_before_append (h : List lock_id) (es fs : List lock_event) :
    held_before h (es ++ fs) = held_before h es ++ held_before (held_after h es) fs := by
  induction es generalizing h with
  | nil => simp [held_before, held_after]
  | cons e es ih => simp [held_before, held_after, ih]

/-- The locks held after a concatenated trace. -/
theorem held_after_append (h : List lock_id) (es fs : List lock_event) :
    held_after h (es ++ fs) = held_after (held_after h es) fs := by
  simp [held_after]

/-- The loop over the device slots returns to the locks it started with. -/
theorem held_after_device_loop (h : List lock_id) (slots : List Nat) :
    held_after h (device_loop_trace slots) = h := by
  induction slots with
  | nil => simp [device_loop_trace, held_after]
  | cons i is ih =>
    have e : device_loop_trace (i :: is) =
        [.lock (.device_lock i), .unlock (.device_lock i)] ++ device_loop_trace is := by
      simp [device_loop_trace]
    have e2 : held_after h
        [lock_event.lock (.device_lock i), lock_event.unlock (.device_lock i)] = h := by
      simp [held_after, held_step]
    rw [e, held_after_append, e2]
    exact ih

/-- Inside the loop, taken under `tracker_lock` alone, a device lock is acquired with only
`tracker_lock` held and released while held. -/
theorem held_before_device_loop (slots : List Nat) :
    ∀ p ∈ held_before [.tracker_lock] (device_loop_trace slots),
      ∃ i, p = ([.tracker_lock], lock_event.lock (.device_lock i)) ∨
        p = ([.device_lock i, .tracker_lock], lock_event.unlock (.device_lock i)) := by
  induction slots with
  | nil => intro p hp; simp [device_loop_trace, held_before] at hp
  | cons i is ih =>
    intro p hp
    have e : device_loop_trace (i :: is) =
        [.lock (.device_lock i), .unlock (.device_lock i)] ++ device_loop_trace is := by
      simp [device_loop_trace]
    rw [e, held_before_append] at hp
    rcases List.mem_append.1 hp with h1 | h1
    · simp only [held_before, held_step, List.mem_cons, List.mem_nil_iff, or_false] at h1
      rcases h1 with rfl | rfl
      · exact ⟨i, Or.inl rfl⟩
      · exact ⟨i, Or.inr rfl⟩
    · have hh : held_after [lock_id.tracker_lock]
          [lock_event.lock (.device_lock i), lock_event.unlock (.device_lock i)] =
          [.tracker_lock] := by
        simp [held_after, held_step]
      rw [hh] at h1
      exact ih p h1

/-- C15: in the lock-event trace of every operation of `rift-tracker.c`, `tracker_lock` is
never acquired while a device lock is held; a lock is acquired with another one held only
in `rift_tracker_update_exposure`, where a device lock is taken under `tracker_lock`
alone; every unlock releases a held lock and no lock is held when the operation ends. -/
theorem lock_order (RIFT_MAX_TRACKED_DEVICES : Nat) (ctx : rift_tracker_ctx)
    (call : tracker_call) :
    (∀ p ∈ held_before [] (lock_trace RIFT_MAX_TRACKED_DEVICES ctx call),
      (p.2 = .lock .tracker_lock → ∀ i, lock_id.device_lock i ∉ p.1) ∧
      (∀ l, p.2 = .lock l → p.1 = [] ∨
        (call.is_update_exposure = true ∧ p.1 = [.tracker_lock] ∧ ∃ i, l = .device_lock i)) ∧
      (∀ l, p.2 = .unlock l → l ∈ p.1)) ∧
    held_after [] (lock_trace RIFT_MAX_TRACKED_DEVICES ctx call) = [] := by
  cases call with
  | add_device device_id imu_pose =>
    by_cases h : ctx.n_devices < RIFT_MAX_TRACKED_DEVICES
    · simp [lock_trace, h, held_before, held_after, held_step]
    · simp [lock_trace, h, held_before, held_after]
  | get_exposure_info => simp [lock_trace, held_before, held_after, held_step]
  | update_exposure now exposure_count exposure_hmd_ts led_pattern_phase =>
    by_cases h : ctx.exposure_info.count = exposure_count
    · simp [lock_trace, h, held_before, held_after, held_step]
    · have ht : lock_trace RIFT_MAX_TRACKED_DEVICES ctx
          (.update_exposure now exposure_count exposure_hmd_ts led_pattern_phase) =
          [lock_event.lock lock_id.tracker_lock] ++
            (device_loop_trace (List.range RIFT_MAX_TRACKED_DEVICES) ++
              [lock_event.unlock lock_id.tracker_lock]) := by
        simp [lock_trace, h]
      have h1 : held_after [] [lock_event.lock lock_id.tracker_lock] = [.tracker_lock] := by
        simp [held_after, held_step]
      rw [ht]
      constructor
      · intro p hp
        rw [held_before_append, h1, held_before_append, held_after_device_loop] at hp
        rcases List.mem_append.1 hp with h2 | h2
        · simp only [held_before, List.mem_cons, List.mem_nil_iff, or_false] at h2
          subst h2
          simp
        · rcases List.mem_append.1 h2 with h3 | h3
          · obtain ⟨i, rfl | rfl⟩ := held_before_device_loop _ p h3
            · simp [tracker_call.is_update_exposure]
            · simp
          · simp only [held_before, List.mem_cons, List.mem_nil_iff, or_false] at h3
            subst h3
            simp
      · rw [held_after_append, h1, held_after_append, held_after_device_loop]
        simp [held_after, held_step]
  | imu_update i local_ts device_ts dt ang_vel accel mag_field =>
    simp [lock_trace, held_before, held_after, held_step]
  | get_view_pose i => simp [lock_trace, held_before, held_after, held_step]
  | model_pose_update i local_ts exposure_info pose =>
    simp [lock_trace, held_before, held_after, held_step]
  | get_model_pose i ts g => simp [lock_trace, held_before, held_after, held_step]

/-! ## The claim on the model-pose round trip -/

/-- C16: for every device id and every `fusion_to_model` with unit orientation, when the
fusion holds the pose that `rift_tracked_device_model_pose_update` hands to it for a
model-frame pose `P` (inverse-apply, then the XZ mirror for id 0),
`rift_tracked_device_get_model_pose` (the XZ mirror for id 0, then apply) returns `P`. -/
theorem model_pose_round_trip (dev : rift_tracked_device)
    (exposure_info : rift_tracker_exposure_info) (P : posef) (ts : ℚ)
    (gravity_error_rad : Option ℚ)
    (hunit : dev.fusion_to_model.orient.x * dev.fusion_to_model.orient.x +
      dev.fusion_to_model.orient.y * dev.fusion_to_model.orient.y +
      dev.fusion_to_model.orient.z * dev.fusion_to_model.orient.z +
      dev.fusion_to_model.orient.w * dev.fusion_to_model.orient.w = 1) :
    (rift_tracked_device_get_model_pose
      { dev with
        fusion :=
          { dev.fusion with
            world_position := (model_pose_handed dev exposure_info P).2.pos
            orient := (model_pose_handed dev exposure_info P).2.orient } }
      ts gravity_error_rad).1 = P := by
  obtain ⟨⟨px, py, pz⟩, ⟨ox, oy, oz, ow⟩⟩ := P
  obtain ⟨id, fus, ⟨⟨tx, ty, tz⟩, ⟨qx, qy, qz, qw⟩⟩, lts, dbg, num, ring⟩ := dev
  simp only at hunit
  by_cases hid : id = 0
  · simp only [rift_tracked_device_get_model_pose, model_pose_handed, hid, if_true,
      oposef_init, oposef_mirror_XZ, oposef_apply, oposef_apply_inverse, oquatf_get_rotated,
      oquatf_mult, oquatf_inverse, posef.mk.injEq, vec3f.mk.injEq, quatf.mk.injEq]
    refine ⟨⟨?_, ?_, ?_⟩, ?_, ?_, ?_, ?_⟩
    · linear_combination ((qx * qx + qy * qy + qz * qz + qw * qw + 1) * (px - tx)) * hunit
    · linear_combination ((qx * qx + qy * qy + qz * qz + qw * qw + 1) * (py - ty)) * hunit
    · linear_combination ((qx * qx + qy * qy + qz * qz + qw * qw + 1) * (pz - tz)) * hunit
    · linear_combination ox * hunit
    · linear_combination oy * hunit
    · linear_combination oz * hunit
    · linear_combination ow * hunit
  · simp only [rift_tracked_device_get_model_pose, model_pose_handed, hid, if_false,
      oposef_init, oposef_apply, oposef_apply_inverse, oquatf_get_rotated,
      oquatf_mult, oquatf_inverse, posef.mk.injEq, vec3f.mk.injEq, quatf.mk.injEq]
    refine ⟨⟨?_, ?_, ?_⟩, ?_, ?_, ?_, ?_⟩
    · linear_combination ((qx * qx + qy * qy + qz * qz + qw * qw + 1) * (px - tx)) * hunit
    · linear_combination ((qx * qx + qy * qy + qz * qz + qw * qw + 1) * (py - ty)) * hunit
    · linear_combination ((qx * qx + qy * qy + qz * qz + qw * qw + 1) * (pz - tz)) * hunit
    · linear_combination ox * hunit
    · linear_combination oy * hunit
    · linear_combination oz * hunit
    · linear_combination ow * hunit

/-- Witness of C16: a controller with a turned and shifted `fusion_to_model`. -/
theorem model_pose_round_trip_witness :
    (rift_tracked_device_get_model_pose
      { device_offset_controller with
        fusion :=
          { device_offset_controller.fusion with
            world_position :=
              (model_pose_handed device_offset_controller ⟨0, 0, 0, 0⟩ pose_half_turn_y).2.pos
            orient :=
              (model_pose_handed device_offset_controller ⟨0, 0, 0, 0⟩
                pose_half_turn_y).2.orient } }
      0 none).1 = pose_half_turn_y :=
  model_pose_round_trip device_offset_controller ⟨0, 0, 0, 0⟩ pose_half_turn_y 0 none
    (by norm_num [device_offset_controller, device_fresh])

/-! ## The claim on the tick deltas -/

/-- The four calls of `ofusion_update` made by `handle_tracker_sensor_msg`. -/
theorem handle_tracker_sensor_msg_deltas (F : fusion_ops)
    (decode : hololens_sensors_packet → List Nat → Bool × hololens_sensors_packet)
    (priv : wmr_priv) (buffer : List Nat) :
    (handle_tracker_sensor_msg F decode priv buffer).sensor_fusion =
      fusion_after_deltas F (decode priv.sensor buffer).2 0
        [tick_delta (priv.sensor.gyro_timestamp 3)
            ((decode priv.sensor buffer).2.gyro_timestamp 0),
          tick_delta ((decode priv.sensor buffer).2.gyro_timestamp 0)
            ((decode priv.sensor buffer).2.gyro_timestamp 1),
          tick_delta ((decode priv.sensor buffer).2.gyro_timestamp 1)
            ((decode priv.sensor buffer).2.gyro_timestamp 2),
          tick_delta ((decode priv.sensor buffer).2.gyro_timestamp 2)
            ((decode priv.sensor buffer).2.gyro_timestamp 3)]
        priv.sensor_fusion := by
  simp [handle_tracker_sensor_msg, sensor_msg_loop, fusion_after_deltas]

/-- A positive previous tick that is not ahead of the new one gives the plain difference. -/
theorem tick_delta_forward (last t : Nat) (h0 : 0 < last) (h1 : last ≤ t)
    (h2 : t < 18446744073709551616) : tick_delta last t = t - last := by
  unfold tick_delta
  rw [if_pos h0]
  omega

/-- C17: with previous last timestamp `p` and decoded gyro timestamps
`0 < p ≤ t0 ≤ t1 ≤ t2 ≤ t3` (64-bit values), `handle_tracker_sensor_msg` calls
`ofusion_update` four times with `dt` equal to `TICK_LEN` times `t0 - p`, `t1 - t0`,
`t2 - t1`, `t3 - t2`, which sum to `t3 - p`; when `p = 0` the first delta is 1000; and a
timestamp below a positive previous one gives the delta `2 ^ 64 - (last - t)`, a positive
number. -/
theorem sensor_msg_tick_deltas (F : fusion_ops)
    (decode : hololens_sensors_packet → List Nat → Bool × hololens_sensors_packet)
    (priv : wmr_priv) (buffer : List Nat)
    (hp : 0 < priv.sensor.gyro_timestamp 3)
    (h0 : priv.sensor.gyro_timestamp 3 ≤ (decode priv.sensor buffer).2.gyro_timestamp 0)
    (h1 : (decode priv.sensor buffer).2.gyro_timestamp 0 ≤
      (decode priv.sensor buffer).2.gyro_timestamp 1)
    (h2 : (decode priv.sensor buffer).2.gyro_timestamp 1 ≤
      (decode priv.sensor buffer).2.gyro_timestamp 2)
    (h3 : (decode priv.sensor buffer).2.gyro_timestamp 2 ≤
      (decode priv.sensor buffer).2.gyro_timestamp 3)
    (h64 : (decode priv.sensor buffer).2.gyro_timestamp 3 < 18446744073709551616) :
    (handle_tracker_sensor_msg F decode priv buffer).sensor_fusion =
      fusion_after_deltas F (decode priv.sensor buffer).2 0
        [(decode priv.sensor buffer).2.gyro_timestamp 0 - priv.sensor.gyro_timestamp 3,
          (decode priv.sensor buffer).2.gyro_timestamp 1 -
            (decode priv.sensor buffer).2.gyro_timestamp 0,
          (decode priv.sensor buffer).2.gyro_timestamp 2 -
            (decode priv.sensor buffer).2.gyro_timestamp 1,
          (decode priv.sensor buffer).2.gyro_timestamp 3 -
            (decode priv.sensor buffer).2.gyro_timestamp 2]
        priv.sensor_fusion ∧
    ((decode priv.sensor buffer).2.gyro_timestamp 0 - priv.sensor.gyro_timestamp 3) +
        ((decode priv.sensor buffer).2.gyro_timestamp 1 -
          (decode priv.sensor buffer).2.gyro_timestamp 0) +
        ((decode priv.sensor buffer).2.gyro_timestamp 2 -
          (decode priv.sensor buffer).2.gyro_timestamp 1) +
        ((decode priv.sensor buffer).2.gyro_timestamp 3 -
          (decode priv.sensor buffer).2.gyro_timestamp 2) =
      (decode priv.sensor buffer).2.gyro_timestamp 3 - priv.sensor.gyro_timestamp 3 ∧
    (∀ priv0 : wmr_priv, priv0.sensor.gyro_timestamp 3 = 0 →
      (handle_tracker_sensor_msg F decode priv0 buffer).sensor_fusion =
        fusion_after_deltas F (decode priv0.sensor buffer).2 0
          [1000,
            tick_delta ((decode priv0.sensor buffer).2.gyro_timestamp 0)
              ((decode priv0.sensor buffer).2.gyro_timestamp 1),
            tick_delta ((decode priv0.sensor buffer).2.gyro_timestamp 1)
              ((decode priv0.sensor buffer).2.gyro_timestamp 2),
            tick_delta ((decode priv0.sensor buffer).2.gyro_timestamp 2)
              ((decode priv0.sensor buffer).2.gyro_timestamp 3)]
          priv0.sensor_fusion) ∧
    (∀ last t : Nat, 0 < last → t < last → last < 18446744073709551616 →
      tick_delta last t = 18446744073709551616 - (last - t) ∧ 0 < tick_delta last t) := by
  refine ⟨?_, by omega, ?_, ?_⟩
  · rw [handle_tracker_sensor_msg_deltas,
      tick_delta_forward _ _ hp h0 (by omega),
      tick_delta_forward _ _ (by omega) h1 (by omega),
      tick_delta_forward _ _ (by omega) h2 (by omega),
      tick_delta_forward _ _ (by omega) h3 h64]
  · intro priv0 hz
    rw [handle_tracker_sensor_msg_deltas, hz]
    simp [tick_delta]
  · intro last t hl ht h
    unfold tick_delta
    rw [if_pos hl]
    omega

/-- Witness of C17: previous last timestamp 500, new timestamps 1000, 2000, 3000, 4000. -/
theorem sensor_msg_tick_deltas_witness :
    (handle_tracker_sensor_msg fusion_store (fun _ _ => (true, packet_steady))
        priv_after_first_packet []).sensor_fusion =
      fusion_after_deltas fusion_store packet_steady 0
        [1000 * (0 + 1) - 500, 1000 * (1 + 1) - 1000 * (0 + 1),
          1000 * (2 + 1) - 1000 * (1 + 1), 1000 * (3 + 1) - 1000 * (2 + 1)]
        priv_after_first_packet.sensor_fusion ∧
    (1000 * (0 + 1) - 500) + (1000 * (1 + 1) - 1000 * (0 + 1)) +
        (1000 * (2 + 1) - 1000 * (1 + 1)) + (1000 * (3 + 1) - 1000 * (2 + 1)) =
      1000 * (3 + 1) - 500 ∧
    (∀ priv0 : wmr_priv, priv0.sensor.gyro_timestamp 3 = 0 →
      (handle_tracker_sensor_msg fusion_store (fun _ _ => (true, packet_steady)) priv0
          []).sensor_fusion =
        fusion_after_deltas fusion_store packet_steady 0
          [1000, tick_delta (1000 * (0 + 1)) (1000 * (1 + 1)),
            tick_delta (1000 * (1 + 1)) (1000 * (2 + 1)),
            tick_delta (1000 * (2 + 1)) (1000 * (3 + 1))]
          priv0.sensor_fusion) ∧
    (∀ last t : Nat, 0 < last → t < last → last < 18446744073709551616 →
      tick_delta last t = 18446744073709551616 - (last - t) ∧ 0 < tick_delta last t) :=
  sensor_msg_tick_deltas fusion_store (fun _ _ => (true, packet_steady))
    priv_after_first_packet [] (by decide) (by decide) (by decide) (by decide) (by decide)
    (by decide)

/-! ## The claim on `decrypt_config` -/

/-- One round of the loop extends the XORed part of the payload by one byte. -/
theorem xored_upto_step (key : List Nat) (start i : Nat) (config buf : List Nat)
    (h : xored_upto key start i config buf) :
    xored_upto key start (i + 1) config
      (buf.modify (fun b => b ^^^ key.getD (i % key.length) 0) (start + 2 + i)) := by
  obtain ⟨hlen, hget⟩ := h
  refine ⟨by simp [hlen], ?_⟩
  intro k
  rw [List.getElem?_modify, hget k]
  by_cases hk : start + 2 + i = k
  · subst hk
    have e : start + 2 + i - (start + 2) = i := by omega
    simp [e]
  · by_cases hr : start + 2 ≤ k ∧ k < start + 2 + i
    · have hr2 : start + 2 ≤ k ∧ k < start + 2 + (i + 1) := ⟨hr.1, by omega⟩
      simp [hk, hr, hr2]
    · have hr2 : ¬ (start + 2 ≤ k ∧ k < start + 2 + (i + 1)) := by
        intro hc
        exact hr ⟨hc.1, by omega⟩
      simp [hk, hr, hr2]

/-- With the header out of reach of the payload, the loop runs to the end of the payload
and XORs exactly its bytes. -/
theorem decrypt_config_loop_spec (hdr : wmr_config_layout) (key : List Nat)
    (config : List Nat) (start n : Nat) (hn : n + 2 < 18446744073709551616)
    (hhdr : ∀ buf : List Nat, buf.length = config.length →
      (∀ k, ¬ (start + 2 ≤ k ∧ k < start + 2 + n) → buf[k]? = config[k]?) →
      hdr.json_start buf = start ∧ hdr.json_size buf = n + 2) :
    ∀ (fuel i : Nat) (buf : List Nat), i ≤ n → n - i < fuel →
      xored_upto key start i config buf →
      ∃ out, decrypt_config_loop hdr key fuel i buf = some out ∧
        xored_upto key start n config out := by
  intro fuel
  induction fuel with
  | zero => intro i buf _ hf _; omega
  | succ fuel ih =>
    intro i buf hi hf hx
    have hread := hhdr buf hx.1 (by
      intro k hk
      rw [hx.2 k, if_neg]
      intro hc
      exact hk ⟨hc.1, by omega⟩)
    have hbound : (hdr.json_size buf + 18446744073709551616 - 2) % 18446744073709551616 = n := by
      rw [hread.2]
      omega
    by_cases hlt : i < n
    · simp only [decrypt_config_loop, hbound, hlt, if_true, hread.1]
      exact ih (i + 1) _ (by omega) (by omega) (xored_upto_step key start i config buf hx)
    · have hin : i = n := by omega
      subst hin
      exact ⟨buf, by simp only [decrypt_config_loop, hbound, lt_self_iff_false, if_false], hx⟩

/-- Before the first round nothing is XORed. -/
theorem xored_upto_zero (key : List Nat) (start : Nat) (config : List Nat) :
    xored_upto key start 0 config config := by
  refine ⟨rfl, ?_⟩
  intro k
  rw [if_neg]
  omega

/-- C18: for a buffer whose header has `json_size ≥ 2` and whose payload
`[json_start + 2, json_start + json_size)` lies inside the buffer (of fewer than `2 ^ 31`
bytes, the range of the `int` counter) and cannot change what the header fields read, and
for a non-empty key table, `decrypt_config` returns (given fuel for `json_size - 2` rounds), the
buffer keeps its length, byte `json_start + 2 + i` is XORed with
`wmr_config_key[i mod keylen]` for `0 ≤ i < json_size - 2`, every other byte is unchanged,
and a second application restores the buffer. -/
theorem decrypt_config_involution (hdr : wmr_config_layout) (wmr_config_key : List Nat)
    (config : List Nat) (fuel : Nat)
    (_hkey : 0 < wmr_config_key.length)
    (hsize : 2 ≤ hdr.json_size config)
    (hin : hdr.json_start config + hdr.json_size config ≤ config.length)
    (hlen : config.length < 2147483648)
    (hhdr : ∀ buf : List Nat, buf.length = config.length →
      (∀ k, ¬ (hdr.json_start config + 2 ≤ k ∧
          k < hdr.json_start config + hdr.json_size config) → buf[k]? = config[k]?) →
      hdr.json_start buf = hdr.json_start config ∧ hdr.json_size buf = hdr.json_size config)
    (hfuel : hdr.json_size config - 2 < fuel) :
    ∃ out, decrypt_config hdr wmr_config_key fuel config = some out ∧
      out.length = config.length ∧
      (∀ k, out[k]? =
        if hdr.json_start config + 2 ≤ k ∧ k < hdr.json_start config + hdr.json_size config then
          config[k]?.map fun b =>
            b ^^^ wmr_config_key.getD
              ((k - (hdr.json_start config + 2)) % wmr_config_key.length) 0
        else config[k]?) ∧
      decrypt_config hdr wmr_config_key fuel out = some config := by
  have hsz : hdr.json_size config - 2 + 2 = hdr.json_size config := by omega
  have hreg : ∀ k, (hdr.json_start config + 2 ≤ k ∧
      k < hdr.json_start config + 2 + (hdr.json_size config - 2)) ↔
      (hdr.json_start config + 2 ≤ k ∧ k < hdr.json_start config + hdr.json_size config) := by
    intro k
    constructor <;> rintro ⟨h1, h2⟩ <;> exact ⟨h1, by omega⟩
  have hhdr1 : ∀ buf : List Nat, buf.length = config.length →
      (∀ k, ¬ (hdr.json_start config + 2 ≤ k ∧
          k < hdr.json_start config + 2 + (hdr.json_size config - 2)) → buf[k]? = config[k]?) →
      hdr.json_start buf = hdr.json_start config ∧
        hdr.json_size buf = hdr.json_size config - 2 + 2 := by
    intro buf hl hk
    rw [hsz]
    exact hhdr buf hl (fun k hn => hk k (fun hc => hn ((hreg k).1 hc)))
  obtain ⟨out, hout, hxl, hxg⟩ :=
    decrypt_config_loop_spec hdr wmr_config_key config (hdr.json_start config)
      (hdr.json_size config - 2) (by omega) hhdr1 fuel 0 config (by omega) (by omega)
      (xored_upto_zero wmr_config_key _ config)
  have hoget : ∀ k, out[k]? =
      if hdr.json_start config + 2 ≤ k ∧ k < hdr.json_start config + hdr.json_size config then
        config[k]?.map fun b =>
          b ^^^ wmr_config_key.getD
            ((k - (hdr.json_start config + 2)) % wmr_config_key.length) 0
      else config[k]? := by
    intro k
    rw [hxg k]
    by_cases hr : hdr.json_start config + 2 ≤ k ∧
        k < hdr.json_start config + hdr.json_size config
    · rw [if_pos ((hreg k).2 hr), if_pos hr]
    · rw [if_neg (fun hc => hr ((hreg k).1 hc)), if_neg hr]
  have hhdr2 : ∀ buf : List Nat, buf.length = out.length →
      (∀ k, ¬ (hdr.json_start config + 2 ≤ k ∧
          k < hdr.json_start config + 2 + (hdr.json_size config - 2)) → buf[k]? = out[k]?) →
      hdr.json_start buf = hdr.json_start config ∧
        hdr.json_size buf = hdr.json_size config - 2 + 2 := by
    intro buf hl hk
    refine hhdr1 buf (hl.trans hxl) ?_
    intro k hn
    rw [hk k hn, hxg k, if_neg hn]
  obtain ⟨out2, hout2, hx2l, hx2g⟩ :=
    decrypt_config_loop_spec hdr wmr_config_key out (hdr.json_start config)
      (hdr.json_size config - 2) (by omega) hhdr2 fuel 0 out (by omega) (by omega)
      (xored_upto_zero wmr_config_key _ out)
  have hback : out2 = config := by
    apply List.ext_getElem?
    intro k
    rw [hx2g k, hxg k]
    by_cases hr : hdr.json_start config + 2 ≤ k ∧
        k < hdr.json_start config + 2 + (hdr.json_size config - 2)
    · rw [if_pos hr, if_pos hr]
      cases hc : config[k]? with
      | none => simp
      | some b => simp [Nat.xor_assoc]
    · rw [if_neg hr, if_neg hr]
  refine ⟨out, hout, hxl, hoget, ?_⟩
  rw [← hback]
  exact hout2

/-- Witness of C18: an eight-byte buffer with a three-byte payload and a two-byte key. -/
theorem decrypt_config_involution_witness :
    ∃ out, decrypt_config layout_two_bytes [5, 6] 10 config_small = some out ∧
      out.length = config_small.length ∧
      (∀ k, out[k]? =
        if layout_two_bytes.json_start config_small + 2 ≤ k ∧
            k < layout_two_bytes.json_start config_small +
              layout_two_bytes.json_size config_small then
          config_small[k]?.map fun b =>
            b ^^^ [5, 6].getD
              ((k - (layout_two_bytes.json_start config_small + 2)) % [5, 6].length) 0
        else config_small[k]?) ∧
      decrypt_config layout_two_bytes [5, 6] 10 out = some config_small :=
  decrypt_config_involution layout_two_bytes [5, 6] config_small 10 (by decide) (by decide)
    (by decide) (by decide)
    (by
      intro buf hl hk
      have h0 := hk 0 (by decide)
      have h1 := hk 1 (by decide)
      cases buf with
      | nil => simp [config_small] at hl
      | cons a t =>
        cases t with
        | nil => simp [config_small] at hl
        | cons b t =>
          simp only [config_small, List.getElem?_cons_zero, List.getElem?_cons_succ,
            Option.some.injEq] at h0 h1
          subst h0 h1
          simp [layout_two_bytes, config_small])
    (by decide)

end OpenHMD
